import Mathlib

/-! Power-state reconciliation of a Proxmox machine, and validation of its network
configuration.

A shallow embedding of `internal/service/vmservice/power.go`
(`reconcilePowerStateOn`, `startVirtualMachine`, `reconcilePowerStateOff`
and `stopVirtualMachine`) and of `pkg/cloudinit/network.go`
(`NewNetworkConfig`, `Render`, `validate` and `validIPAddress`).

The Go code of `power.go` mutates the `ProxmoxMachine` object reachable from
the machine scope and talks to the hypervisor through a client interface.  Both
are made explicit here: every function takes a `World` (the machine object, the
state behind the client and a log of the client calls issued so far) and returns
the new `World` next to its Go results.

Not modelled: the `context.Context` argument, the `V(4).Info` log lines
(they do not change any state read by this code), the wall-clock
`LastTransitionTime` of a condition and the display order of the condition
list.  In `network.go` the parser `netip.ParsePrefix` and the template engine
`render` are arguments of the functions that call them.
-/

namespace vmservice

/-! ## Go errors and formatting -/

/-- Go `error` values: either a plain message, or a message wrapping another
error, as produced by `fmt.Errorf` with a `%w` verb. `none : Option GoError`
plays the role of the `nil` error. -/
inductive GoError where
  | errorString (text : String)
  | wrapError (text : String) (err : GoError)
  deriving DecidableEq, Repr

namespace GoError

/-- The method `Error()`: the text of the error. -/
def Error : GoError → String
  | errorString text => text
  | wrapError text _ => text

/-- The method `Unwrap()` as used by `errors.Unwrap`: the wrapped error, if any. -/
def Unwrap : GoError → Option GoError
  | errorString _ => none
  | wrapError _ err => some err

end GoError

namespace fmt

/-- The call `fmt.Errorf(before + "%d" + between + "%w", d, err)`: the text is the
format with the decimal number and the text of `err` substituted, and the
result wraps `err`. -/
def Errorf (before : String) (d : Nat) (between : String) (err : GoError) : GoError :=
  GoError.wrapError (before ++ toString d ++ between ++ err.Error) err

/-- Flag characters accepted after a percent sign. -/
def isFlag (c : Char) : Bool :=
  c == '#' || c == '0' || c == '+' || c == '-' || c == ' '

/-- The flag loop of `doPrintf`: skip every flag character. -/
def skipFlags : List Char → List Char
  | [] => []
  | c :: cs => if isFlag c then skipFlags cs else c :: cs

/-- The loop of `parsenum` over the segment `s[start:end]`: the number read, whether
a digit was read, and what is left of the segment. A number that grows beyond
one million gives up and jumps to the end of the segment. -/
def parsenumLoop : List Char → Nat → Bool → Nat × Bool × List Char
  | [], num, isnum => (num, isnum, [])
  | c :: cs, num, isnum =>
    if c.isDigit then
      if num > 1000000 then (0, false, [])
      else parsenumLoop cs (num * 10 + (c.toNat - 48)) true
    else (num, isnum, c :: cs)

/-- The function `parsenum` on a segment. -/
def parsenum (seg : List Char) : Nat × Bool × List Char :=
  parsenumLoop seg 0 false

/-- Split at the first closing bracket: what stands before it and what follows it. -/
def splitAtBracket : List Char → Option (List Char × List Char)
  | [] => none
  | c :: cs =>
    if c == ']' then some ([], cs)
    else match splitAtBracket cs with
      | some (seg, rest) => some (c :: seg, rest)
      | none => none

/-- The function `parseArgNumber` on a format that starts with an opening bracket:
the format after the index and whether a well-formed index was read. -/
def parseArgNumber (s : List Char) : List Char × Bool :=
  if s.length < 3 then (s.drop 1, false)
  else match splitAtBracket (s.drop 1) with
    | none => (s.drop 1, false)
    | some (seg, rest) =>
      let r := parsenum seg
      if !r.2.1 || !r.2.2.isEmpty then (rest, false) else (rest, true)

/-- The method `argNumber` when there are no operands: the format after an optional
`[n]` index, whether an index was found, and the new value of `goodArgNum`
(no index is ever in range, so an index always clears it). -/
def argNumber (s : List Char) (goodArgNum : Bool) : List Char × Bool × Bool :=
  match s with
  | '[' :: _ => let r := parseArgNumber s
                (r.1, r.2, false)
  | _ => (s, false, goodArgNum)

/-- One verb of `doPrintf` with no operands, started right after the percent sign:
the text written, and the rest of the format (`none` when the format ended
before a verb, which ends the formatting). A dot opens a precision only when a
character follows it (`i+1 < end`); a dot that ends the format is the verb. -/
def doVerb (afterPercent : List Char) : List Char × Option (List Char) :=
  let s1 := skipFlags afterPercent
  -- explicit argument index
  let a1 := argNumber s1 true
  -- width
  let wd : List Char × List Char × Bool × Bool :=
    match a1.1 with
    | '*' :: r => ("%!(BADWIDTH)".toList, r, false, a1.2.2)
    | s => let n := parsenum s
           ([], n.2.2, a1.2.1, if a1.2.1 && n.2.1 then false else a1.2.2)
  -- precision
  let pr : List Char × List Char × Bool × Bool :=
    match wd.2.1 with
    | '.' :: c :: r =>
      let good := if wd.2.2.1 then false else wd.2.2.2
      let a2 := argNumber (c :: r) good
      match a2.1 with
      | '*' :: r2 => (wd.1 ++ "%!(BADPREC)".toList, r2, false, a2.2.2)
      | s => (wd.1, (parsenum s).2.2, a2.2.1, a2.2.2)
    | s => (wd.1, s, wd.2.2.1, wd.2.2.2)
  let a3 := if pr.2.2.1 then (pr.2.1, true, pr.2.2.2) else argNumber pr.2.1 pr.2.2.2
  match a3.1 with
  | [] => (pr.1 ++ "%!(NOVERB)".toList, none)
  | verb :: rest =>
    if verb == '%' then (pr.1 ++ [ '%'], some rest)
    else if !a3.2.2 then (pr.1 ++ "%!".toList ++ [verb] ++ "(BADINDEX)".toList, some rest)
    else (pr.1 ++ "%!".toList ++ [verb] ++ "(MISSING)".toList, some rest)

/-- The method `doPrintf` with no operands. The fuel bounds the number of steps;
the length of the format is always enough. -/
def doPrintf : Nat → List Char → List Char
  | 0, _ => []
  | _, [] => []
  | fuel + 1, c :: cs =>
    if c == '%' then
      match doVerb cs with
      | (out, some rest) => out ++ doPrintf fuel rest
      | (out, none) => out
    else c :: doPrintf fuel cs

/-- The call `fmt.Sprintf(format)` with a format and no operands. -/
def Sprintf (format : String) : String :=
  String.mk (doPrintf format.length format.toList)

end fmt

/-! ## Conditions (`sigs.k8s.io/cluster-api`) -/

/-- The type `corev1.ConditionStatus`. -/
inductive ConditionStatus where
  | ConditionTrue
  | ConditionFalse
  | ConditionUnknown
  deriving DecidableEq, Repr

/-- The type `clusterv1.ConditionSeverity`; `ConditionSeverityNone` is the empty severity. -/
inductive ConditionSeverity where
  | ConditionSeverityError
  | ConditionSeverityWarning
  | ConditionSeverityInfo
  | ConditionSeverityNone
  deriving DecidableEq, Repr

/-- The type `clusterv1.Condition`, without its `LastTransitionTime`. The Go field
`Type` is named `Type_` here. -/
structure Condition where
  Type_ : String
  Status : ConditionStatus
  Severity : ConditionSeverity
  Reason : String
  Message : String
  deriving DecidableEq, Repr

/-- The status sub-document of a `ProxmoxMachine`: the task reference and the conditions. -/
structure ProxmoxMachineStatus where
  TaskRef : Option String
  Conditions : List Condition
  deriving DecidableEq, Repr

/-- The `ProxmoxMachine` object the machine scope points to. `HasNetworkAddress` is the
network-readiness fact that `machineHasIPAddress` reads. -/
structure ProxmoxMachine where
  Status : ProxmoxMachineStatus
  HasNetworkAddress : Bool
  deriving DecidableEq, Repr

namespace conditions

/-- The function `conditions.FalseCondition`: the message is formatted with `fmt.Sprintf`. -/
def FalseCondition (t : String) (reason : String) (severity : ConditionSeverity)
    (messageFormat : String) : Condition :=
  { Type_ := t, Status := ConditionStatus.ConditionFalse, Severity := severity,
    Reason := reason, Message := fmt.Sprintf messageFormat }

/-- The function `hasSameState`: equal type, status, reason, severity and message. -/
def hasSameState (i j : Condition) : Bool :=
  i.Type_ == j.Type_ && i.Status == j.Status && i.Reason == j.Reason &&
    i.Severity == j.Severity && i.Message == j.Message

/-- The loop of `conditions.Set`: the first condition of the same type is replaced
when its state differs; a condition of a new type is appended. -/
def setLoop (condition : Condition) : List Condition → List Condition
  | [] => [condition]
  | existing :: rest =>
    if existing.Type_ == condition.Type_ then
      (if hasSameState existing condition then existing else condition) :: rest
    else existing :: setLoop condition rest

/-- The function `conditions.Set` on a machine. -/
def Set (dst : ProxmoxMachine) (condition : Condition) : ProxmoxMachine :=
  { dst with Status := { dst.Status with Conditions := setLoop condition dst.Status.Conditions } }

/-- The function `conditions.Get`: the first condition of the given type. -/
def Get (src : ProxmoxMachine) (t : String) : Option Condition :=
  src.Status.Conditions.find? (fun c => c.Type_ == t)

/-- The function `conditions.MarkFalse` with a message format and no operands. -/
def MarkFalse (dst : ProxmoxMachine) (t : String) (reason : String)
    (severity : ConditionSeverity) (messageFormat : String) : ProxmoxMachine :=
  Set dst (FalseCondition t reason severity messageFormat)

end conditions

/-- Modelled from the spec: the condition kind "Provisioned", whose Go constant
`infrav1alpha1.VMProvisionedCondition` is declared outside the given sources. -/
def VMProvisionedCondition : String := "Provisioned"

/-- Modelled from the spec: the reason "PoweringOn" (`infrav1alpha1.PoweringOnReason`). -/
def PoweringOnReason : String := "PoweringOn"

/-- Modelled from the spec: the reason "PoweringOnFailed" (`infrav1alpha1.PoweringOnFailedReason`). -/
def PoweringOnFailedReason : String := "PoweringOnFailed"

/-- Modelled from the spec: the reason "PoweringOff" (`infrav1alpha1.PoweringOffReason`). -/
def PoweringOffReason : String := "PoweringOff"

/-- Modelled from the spec: the reason "PoweringOffFailed" (`infrav1alpha1.PoweringOffFailedReason`). -/
def PoweringOffFailedReason : String := "PoweringOffFailed"

/-- Modelled from the spec: `machineHasIPAddress` is declared outside the given sources;
it is the boolean fact "does the machine have at least one assigned network address". -/
def machineHasIPAddress (machine : ProxmoxMachine) : Bool :=
  machine.HasNetworkAddress

/-! ## The hypervisor side -/

/-- The snapshot `proxmox.VirtualMachine`: its identifier and the answers of the status
methods `IsPaused()`, `IsStopped()`, `IsHibernated()` and `IsRunning()`. The
answers are independent fields, since the code reads them as separate
predicates; `IsRunning` is never read by this code. The answers go-proxmox computes
from the fields of a VM are those of `proxmox.VirtualMachineData.observe`. -/
structure VirtualMachine where
  VMID : Nat
  IsPaused : Bool
  IsStopped : Bool
  IsHibernated : Bool
  IsRunning : Bool
  deriving DecidableEq, Repr

/-- The type `proxmox.Task`, of which only the identifier is read. -/
structure Task where
  UPID : String
  deriving DecidableEq, Repr

/-- The Go result pair `(*proxmox.Task, error)`. -/
abbrev TaskResult := Option Task × Option GoError

/-- The client interface `capmox.Client`, restricted to the three methods used here.
Its behaviour is arbitrary: each method maps the state behind the client and
the VM to a result and a new state. -/
structure Client (σ : Type) where
  ResumeVM : σ → VirtualMachine → TaskResult × σ
  StartVM : σ → VirtualMachine → TaskResult × σ
  ShutdownVM : σ → VirtualMachine → TaskResult × σ

/-- The three state-changing client methods. -/
inductive ClientMethod where
  | ResumeVM
  | StartVM
  | ShutdownVM
  deriving DecidableEq, Repr

/-- One entry of the call log: the method, the VM passed, the machine object as it
was when the call was made, and what the client returned. -/
structure ClientCall where
  method : ClientMethod
  vm : VirtualMachine
  observed : ProxmoxMachine
  result : TaskResult
  deriving DecidableEq, Repr

/-- Everything a pass can read or change: the machine object, the state behind the
client, and the log of client calls so far (oldest first). -/
structure World (σ : Type) where
  ProxmoxMachine : ProxmoxMachine
  hypervisor : σ
  calls : List ClientCall

/-- The machine scope: the VM snapshot and the client (`InfraCluster.ProxmoxClient`).
The machine object it points to lives in the `World`. -/
structure MachineScope (σ : Type) where
  VirtualMachine : VirtualMachine
  ProxmoxClient : Client σ

/-- Issue one client call: run the method on the state behind the client and log it. -/
def call {σ : Type} (method : ClientMethod) (f : σ → VirtualMachine → TaskResult × σ)
    (vm : VirtualMachine) (w : World σ) : TaskResult × World σ :=
  let r := f w.hypervisor vm
  (r.1, { w with hypervisor := r.2,
                 calls := w.calls ++
                   [{ method := method, vm := vm, observed := w.ProxmoxMachine, result := r.1 }] })

/-! ## `power.go` -/

/-- The function `startVirtualMachine`. -/
def startVirtualMachine {σ : Type} (client : Client σ) (vm : VirtualMachine) (w : World σ) :
    TaskResult × World σ :=
  if vm.IsPaused then
    let r := call ClientMethod.ResumeVM client.ResumeVM vm w
    match r.1.2 with
    | some err => ((none, some (fmt.Errorf "unable to resume the virtual machine " vm.VMID ": " err)), r.2)
    | none => ((r.1.1, none), r.2)
  else if vm.IsStopped || vm.IsHibernated then
    let r := call ClientMethod.StartVM client.StartVM vm w
    match r.1.2 with
    | some err => ((none, some (fmt.Errorf "unable to start the virtual machine " vm.VMID ": " err)), r.2)
    | none => ((r.1.1, none), r.2)
  else
    -- nothing to do.
    ((none, none), w)

/-- The function `stopVirtualMachine`. -/
def stopVirtualMachine {σ : Type} (client : Client σ) (vm : VirtualMachine) (w : World σ) :
    TaskResult × World σ :=
  if vm.IsStopped then
    ((none, none), w)
  else
    let r := call ClientMethod.ShutdownVM client.ShutdownVM vm w
    match r.1.2 with
    | some err => ((none, some (fmt.Errorf "unable to shutdown the virtual machine " vm.VMID ": " err)), r.2)
    | none => ((r.1.1, none), r.2)

/-- The results of a pass: the Go results `(requeue, err)` and the world it leaves. -/
structure Result (σ : Type) where
  requeue : Bool
  err : Option GoError
  world : World σ

/-- Store a task reference: `Status.TaskRef = ptr.To(string(t.UPID))`. -/
def setTaskRef (machine : ProxmoxMachine) (t : Task) : ProxmoxMachine :=
  { machine with Status := { machine.Status with TaskRef := some t.UPID } }

/-- The function `reconcilePowerStateOn`. -/
def reconcilePowerStateOn {σ : Type} (machineScope : MachineScope σ) (w : World σ) : Result σ :=
  if !machineHasIPAddress w.ProxmoxMachine then
    { requeue := true, err := none, world := w }
  else
    let w1 := { w with ProxmoxMachine := (conditions.MarkFalse w.ProxmoxMachine
      VMProvisionedCondition PoweringOnReason ConditionSeverity.ConditionSeverityInfo "") }
    let r := startVirtualMachine machineScope.ProxmoxClient machineScope.VirtualMachine w1
    match r.1.2 with
    | some err =>
      { requeue := false, err := some err,
        world := { r.2 with ProxmoxMachine := (conditions.MarkFalse r.2.ProxmoxMachine
          VMProvisionedCondition PoweringOnFailedReason ConditionSeverity.ConditionSeverityInfo
          err.Error) } }
    | none =>
      match r.1.1 with
      | some t =>
        { requeue := true, err := none,
          world := { r.2 with ProxmoxMachine := setTaskRef r.2.ProxmoxMachine t } }
      | none => { requeue := false, err := none, world := r.2 }

/-- The function `reconcilePowerStateOff`. -/
def reconcilePowerStateOff {σ : Type} (machineScope : MachineScope σ) (w : World σ) : Result σ :=
  let w1 := { w with ProxmoxMachine := (conditions.MarkFalse w.ProxmoxMachine
    VMProvisionedCondition PoweringOffReason ConditionSeverity.ConditionSeverityInfo "") }
  let r := stopVirtualMachine machineScope.ProxmoxClient machineScope.VirtualMachine w1
  match r.1.2 with
  | some err =>
    { requeue := false, err := some err,
      world := { r.2 with ProxmoxMachine := (conditions.MarkFalse r.2.ProxmoxMachine
        VMProvisionedCondition PoweringOffFailedReason ConditionSeverity.ConditionSeverityInfo
        err.Error) } }
  | none =>
    match r.1.1 with
    | some t =>
      { requeue := true, err := none,
        world := { r.2 with ProxmoxMachine := setTaskRef r.2.ProxmoxMachine t } }
    | none => { requeue := false, err := none, world := r.2 }

/-! ## Observations on a pass -/

/-- The client calls issued between two worlds of one pass: the entries the later log
has beyond the earlier one. -/
def callsDuring {σ : Type} (before after : World σ) : List ClientCall :=
  after.calls.drop before.calls.length

/-- How many calls of a method a list of calls holds. -/
def callCount (method : ClientMethod) (calls : List ClientCall) : Nat :=
  (calls.filter (fun c => c.method == method)).length

/-- The client calls issued by one pass of `reconcilePowerStateOn`. -/
def callsOn {σ : Type} (machineScope : MachineScope σ) (w : World σ) : List ClientCall :=
  callsDuring w (reconcilePowerStateOn machineScope w).world

/-- The client calls issued by one pass of `reconcilePowerStateOff`. -/
def callsOff {σ : Type} (machineScope : MachineScope σ) (w : World σ) : List ClientCall :=
  callsDuring w (reconcilePowerStateOff machineScope w).world

/-- The stored task reference of a world. -/
def taskRef {σ : Type} (w : World σ) : Option String :=
  w.ProxmoxMachine.Status.TaskRef

/-- The stored condition of kind "Provisioned" of a world. -/
def provisioned {σ : Type} (w : World σ) : Option Condition :=
  conditions.Get w.ProxmoxMachine VMProvisionedCondition

/-- The condition a failed pass writes: status False, Info severity, the given reason, and
the text of the returned error passed through `fmt.Sprintf` as a format. -/
def failedCondition (reason : String) (err : GoError) : Condition :=
  { Type_ := VMProvisionedCondition, Status := ConditionStatus.ConditionFalse,
    Severity := ConditionSeverity.ConditionSeverityInfo, Reason := reason,
    Message := fmt.Sprintf err.Error }

/-- The word the error text of `startVirtualMachine` or `stopVirtualMachine` uses for the
client method that failed: the three format strings of `fmt.Errorf` differ in it only. -/
def actionName : ClientMethod → String
  | ClientMethod.ResumeVM => "resume"
  | ClientMethod.StartVM => "start"
  | ClientMethod.ShutdownVM => "shutdown"

/-- The condition a pass writes before it acts: status False, Info severity, the given
in-progress reason and an empty message. -/
def inProgressCondition (reason : String) : Condition :=
  { Type_ := VMProvisionedCondition, Status := ConditionStatus.ConditionFalse,
    Severity := ConditionSeverity.ConditionSeverityInfo, Reason := reason, Message := "" }

/-- The same world with another stored task reference. -/
def withTaskRef {σ : Type} (w : World σ) (ref : Option String) : World σ :=
  { w with ProxmoxMachine :=
      { w.ProxmoxMachine with Status := { w.ProxmoxMachine.Status with TaskRef := ref } } }

/-- What the hypervisor sees of a call: the method, the VM and the result returned. -/
def callSummary (c : ClientCall) : ClientMethod × VirtualMachine × TaskResult :=
  (c.method, c.vm, c.result)

/-! ## The status methods of go-proxmox -/

namespace proxmox

/-- The fields of the go-proxmox type `VirtualMachine` that its status methods read. -/
structure VirtualMachineData where
  VMID : Nat
  Status : String
  QMPStatus : String
  Lock : String
  deriving DecidableEq, Repr

/-- The constant `StatusVirtualMachineRunning`. -/
def StatusVirtualMachineRunning : String := "running"

/-- The constant `StatusVirtualMachineStopped`. -/
def StatusVirtualMachineStopped : String := "stopped"

/-- The constant `StatusVirtualMachinePaused`. -/
def StatusVirtualMachinePaused : String := "paused"

namespace VirtualMachineData

/-- The method `IsRunning()`. -/
def IsRunning (v : VirtualMachineData) : Bool :=
  v.Status == StatusVirtualMachineRunning && v.QMPStatus == StatusVirtualMachineRunning

/-- The method `IsStopped()`. -/
def IsStopped (v : VirtualMachineData) : Bool :=
  v.Status == StatusVirtualMachineStopped && v.QMPStatus == StatusVirtualMachineStopped

/-- The method `IsPaused()`. -/
def IsPaused (v : VirtualMachineData) : Bool :=
  v.Status == StatusVirtualMachineRunning && v.QMPStatus == StatusVirtualMachinePaused

/-- The method `IsHibernated()`: stopped, with the lock left by a suspend to disk. -/
def IsHibernated (v : VirtualMachineData) : Bool :=
  v.Status == StatusVirtualMachineStopped && v.QMPStatus == StatusVirtualMachineStopped &&
    v.Lock == "suspended"

/-- What the reconciler reads of a VM: its identifier and the answers of the status
methods. -/
def observe (v : VirtualMachineData) : VirtualMachine :=
  { VMID := v.VMID, IsPaused := v.IsPaused, IsStopped := v.IsStopped,
    IsHibernated := v.IsHibernated, IsRunning := v.IsRunning }

end VirtualMachineData

end proxmox

/-! ## Concrete inputs -/

/-- A client without state that answers every call with the same result. -/
def constClient (r : TaskResult) : Client Unit :=
  { ResumeVM := fun _ _ => (r, ()),
    StartVM := fun _ _ => (r, ()),
    ShutdownVM := fun _ _ => (r, ()) }

/-- A world with the given machine object, before any client call. -/
def freshWorld (machine : ProxmoxMachine) : World Unit :=
  { ProxmoxMachine := machine, hypervisor := (), calls := [] }

/-- A machine with no task reference and no condition yet. -/
def newMachine (hasNetworkAddress : Bool) : ProxmoxMachine :=
  { Status := { TaskRef := none, Conditions := [] }, HasNetworkAddress := hasNetworkAddress }

/-- VM 100 reported paused. -/
def pausedVM : VirtualMachine :=
  { VMID := 100, IsPaused := true, IsStopped := false, IsHibernated := false, IsRunning := false }

/-- VM 100 reported stopped. -/
def stoppedVM : VirtualMachine :=
  { VMID := 100, IsPaused := false, IsStopped := true, IsHibernated := false, IsRunning := false }

/-- VM 100 reported running. -/
def runningVM : VirtualMachine :=
  { VMID := 100, IsPaused := false, IsStopped := false, IsHibernated := false, IsRunning := true }

/-- VM 100 in an unknown status: none of the status methods answers true. -/
def unknownVM : VirtualMachine :=
  { VMID := 100, IsPaused := false, IsStopped := false, IsHibernated := false, IsRunning := false }

/-- A successful client result carrying the task "UPID:100:...". -/
def taskReply : TaskResult :=
  (some { UPID := "UPID:100:..." }, none)

/-- A failed client result with the error text "timeout". -/
def timeoutReply : TaskResult :=
  (none, some (GoError.errorString "timeout"))

/-- A failed client result whose error text holds a percent sign. -/
def percentReply : TaskResult :=
  (none, some (GoError.errorString "disk usage 100% reached"))

/-- A client result that carries both a task and an error. -/
def taskAndErrorReply : TaskResult :=
  (some { UPID := "UPID:100:..." }, some (GoError.errorString "timeout"))

/-- A successful client result without a task. -/
def noTaskReply : TaskResult :=
  (none, none)

/-- A machine with a network address whose last pass failed to power on, and which still
holds the reference of an older task. -/
def failedMachine : ProxmoxMachine :=
  { Status :=
      { TaskRef := some "UPID:100:old",
        Conditions := [{ Type_ := VMProvisionedCondition,
                         Status := ConditionStatus.ConditionFalse,
                         Severity := ConditionSeverity.ConditionSeverityInfo,
                         Reason := PoweringOnFailedReason, Message := "timeout" }] },
    HasNetworkAddress := true }

/-- VM 100 hibernated: stopped, with the lock "suspended". -/
def hibernatedData : proxmox.VirtualMachineData :=
  { VMID := 100, Status := "stopped", QMPStatus := "stopped", Lock := "suspended" }

/-- VM 100 paused: running, with the monitor status "paused". -/
def pausedData : proxmox.VirtualMachineData :=
  { VMID := 100, Status := "running", QMPStatus := "paused", Lock := "" }

end vmservice

namespace cloudinit

/-! ## `network.go` of package `cloudinit` -/

/-- The errors met in `network.go`: the sentinel errors of the package, declared outside the
given sources and used only by identity, and a failure of the template engine. -/
inductive CloudInitError where
  | ErrMissingNetworkConfigData
  | ErrMissingIPAddress
  | ErrMissingMacAddress
  | ErrMalformedIPAddress
  | ErrMissingGateway
  | templateError (text : String)
  deriving DecidableEq, Repr

/-- The type `NetworkConfigData`, declared outside the given sources: the fields `network.go`
and its template read. -/
structure NetworkConfigData where
  MacAddress : String
  DHCP4 : Bool
  DHCP6 : Bool
  IPAddress : String
  IPV6Address : String
  Gateway : String
  Gateway6 : String
  DNSServers : List String
  deriving DecidableEq, Repr

/-- The type `BaseCloudInitData`, of which `network.go` fills and reads `NetworkConfigData`
only. A nil slice and an empty slice are both the empty list. -/
structure BaseCloudInitData where
  NetworkConfigData : List NetworkConfigData
  deriving DecidableEq, Repr

/-- The type `NetworkConfig`. -/
structure NetworkConfig where
  data : BaseCloudInitData
  deriving DecidableEq, Repr

/-- The constant `networkConfigTPl`, the network-config template. -/
def networkConfigTPl : String :=
  "version: 2\n" ++
  "ethernets:\n" ++
  "\x7b\x7b- range $index, $element := .NetworkConfigData \x7d\x7d\n" ++
  "  eth\x7b\x7b $index \x7d\x7d:\n" ++
  "    match:\n" ++
  "      macaddress: \x7b\x7b $element.MacAddress \x7d\x7d\n" ++
  "    dhcp4: false\n" ++
  "    addresses:\n" ++
  "    \x7b\x7b- if $element.IPAddress \x7d\x7d\n" ++
  "      - \x7b\x7b $element.IPAddress \x7d\x7d\n" ++
  "    \x7b\x7b- end \x7d\x7d\n" ++
  "    \x7b\x7b- if $element.IPV6Address \x7d\x7d\n" ++
  "      - \x7b\x7b $element.IPV6Address \x7d\x7d\n" ++
  "    \x7b\x7b- end \x7d\x7d\n" ++
  "  \x7b\x7b- if eq $index 0 \x7d\x7d\n" ++
  "    \x7b\x7b- if $element.Gateway \x7d\x7d\n" ++
  "    gateway4: \x7b\x7b $element.Gateway \x7d\x7d\n" ++
  "    \x7b\x7b- end \x7d\x7d\n" ++
  "    \x7b\x7b- if $element.Gateway6 \x7d\x7d\n" ++
  "    gateway6: \x7b\x7b $element.Gateway6 \x7d\x7d\n" ++
  "    \x7b\x7b- end \x7d\x7d\n" ++
  "    \x7b\x7b- if $element.DNSServers \x7d\x7d\n" ++
  "    nameservers:\n" ++
  "      addresses:\n" ++
  "      \x7b\x7b- range $element.DNSServers \x7d\x7d\n" ++
  "        - \x7b\x7b . \x7d\x7d\n" ++
  "      \x7b\x7b- end -\x7d\x7d\n" ++
  "    \x7b\x7b- end -\x7d\x7d\n" ++
  "  \x7b\x7b- end -\x7d\x7d\n" ++
  "\x7b\x7b- end -\x7d\x7d"

/-- The function `NewNetworkConfig`. -/
def NewNetworkConfig (configs : List NetworkConfigData) : NetworkConfig :=
  { data := { NetworkConfigData := configs } }

/-- The function `validIPAddress`. `parsePrefixOk input` tells whether
`netip.ParsePrefix(input)` returns a nil error. -/
def validIPAddress (parsePrefixOk : String → Bool) (input : String) : Option CloudInitError :=
  if input == "" then
    some CloudInitError.ErrMissingIPAddress
  else if !parsePrefixOk input then
    some CloudInitError.ErrMalformedIPAddress
  else
    none

/-- The body of the loop of `validate` for one entry: the error it returns, or `none` when
the loop goes on to the next entry. -/
def validateEntry (parsePrefixOk : String → Bool) (d : NetworkConfigData) :
    Option CloudInitError :=
  if !d.DHCP4 && !d.DHCP6 && d.IPAddress.length == 0 && d.IPV6Address.length == 0 then
    some CloudInitError.ErrMissingIPAddress
  else if d.MacAddress == "" then
    some CloudInitError.ErrMissingMacAddress
  else
    let v4 : Option CloudInitError :=
      if !d.DHCP4 && decide (d.IPAddress.length > 0) then
        match validIPAddress parsePrefixOk d.IPAddress with
        | some err => some err
        | none => if d.Gateway == "" then some CloudInitError.ErrMissingGateway else none
      else none
    match v4 with
    | some err => some err
    | none =>
      if !d.DHCP6 && decide (d.IPV6Address.length > 0) then
        match validIPAddress parsePrefixOk d.IPV6Address with
        | some err6 => some err6
        | none => if d.Gateway6 == "" then some CloudInitError.ErrMissingGateway else none
      else none

/-- The loop of `validate` over the entries, in list order. -/
def validateLoop (parsePrefixOk : String → Bool) :
    List NetworkConfigData → Option CloudInitError
  | [] => none
  | d :: rest =>
    match validateEntry parsePrefixOk d with
    | some err => some err
    | none => validateLoop parsePrefixOk rest

/-- The method `NetworkConfig.validate`; `none` is the nil error. -/
def NetworkConfig.validate (parsePrefixOk : String → Bool) (r : NetworkConfig) :
    Option CloudInitError :=
  if r.data.NetworkConfigData.length == 0 then
    some CloudInitError.ErrMissingNetworkConfigData
  else
    validateLoop parsePrefixOk r.data.NetworkConfigData

/-- The Go result pair `([]byte, error)`; the bytes are kept as text. -/
abbrev RenderResult := Option String × Option CloudInitError

/-- What `Render` does besides returning: a line printed to the standard output, or a run
of the template engine (`render`, declared outside the given sources). -/
inductive RenderEvent where
  | Println (line : String)
  | render (name : String) (tpl : String) (data : BaseCloudInitData)
  deriving DecidableEq, Repr

/-- The method `NetworkConfig.Render`, with the events it causes, oldest first. `render` is
the template engine. -/
def NetworkConfig.Render (parsePrefixOk : String → Bool)
    (render : String → String → BaseCloudInitData → RenderResult) (r : NetworkConfig) :
    RenderResult × List RenderEvent :=
  match r.validate parsePrefixOk with
  | some err => ((none, some err), [])
  | none =>
    let tpl := (render "network-config" networkConfigTPl r.data).1
    (render "network-config" networkConfigTPl r.data,
      [RenderEvent.Println "-------------> network-config template",
       RenderEvent.render "network-config" networkConfigTPl r.data,
       RenderEvent.Println (tpl.getD ""),
       RenderEvent.render "network-config" networkConfigTPl r.data])

/-! ## The checks of `validate`, as the precedence list states them -/

/-- The first failing check of one entry, in the stated precedence: no DHCP and no address,
then no MAC address, then a malformed IPAddress, then an empty Gateway, then a malformed
IPV6Address, then an empty Gateway6. The address and gateway checks of a family apply when
its DHCP is off and its address is not empty. -/
def firstFailingCheck (parsePrefixOk : String → Bool) (d : NetworkConfigData) :
    Option CloudInitError :=
  if d.DHCP4 = false ∧ d.DHCP6 = false ∧ d.IPAddress = "" ∧ d.IPV6Address = "" then
    some CloudInitError.ErrMissingIPAddress
  else if d.MacAddress = "" then
    some CloudInitError.ErrMissingMacAddress
  else if d.DHCP4 = false ∧ d.IPAddress ≠ "" ∧ parsePrefixOk d.IPAddress = false then
    some CloudInitError.ErrMalformedIPAddress
  else if d.DHCP4 = false ∧ d.IPAddress ≠ "" ∧ d.Gateway = "" then
    some CloudInitError.ErrMissingGateway
  else if d.DHCP6 = false ∧ d.IPV6Address ≠ "" ∧ parsePrefixOk d.IPV6Address = false then
    some CloudInitError.ErrMalformedIPAddress
  else if d.DHCP6 = false ∧ d.IPV6Address ≠ "" ∧ d.Gateway6 = "" then
    some CloudInitError.ErrMissingGateway
  else
    none

/-- The error of the first invalid entry of a list, in list order. -/
def firstInvalidEntryError (parsePrefixOk : String → Bool)
    (configs : List NetworkConfigData) : Option CloudInitError :=
  (configs.find? (fun d => (firstFailingCheck parsePrefixOk d).isSome)).bind
    (firstFailingCheck parsePrefixOk)

/-! ## Concrete inputs -/

/-- A parser that rejects every input: every address counts as malformed. -/
def rejectAll : String → Bool :=
  fun _ => false

/-- A parser that accepts the one prefix "10.0.0.2/24". -/
def acceptOne : String → Bool :=
  fun input => input == "10.0.0.2/24"

/-- A template engine that fails on every input. -/
def failingRender : String → String → BaseCloudInitData → RenderResult :=
  fun _ _ _ => (none, some (CloudInitError.templateError "template"))

/-- An entry with DHCP on for both families, a MAC address, a malformed IPAddress and no
gateway. -/
def dhcpEntry : NetworkConfigData :=
  { MacAddress := "92:60:a0:5b:22:c2", DHCP4 := true, DHCP6 := true,
    IPAddress := "not-an-address", IPV6Address := "", Gateway := "", Gateway6 := "",
    DNSServers := [] }

/-- A static entry with the address "10.0.0.2/24" and the gateway "10.0.0.1". -/
def staticEntry : NetworkConfigData :=
  { MacAddress := "92:60:a0:5b:22:c2", DHCP4 := false, DHCP6 := false,
    IPAddress := "10.0.0.2/24", IPV6Address := "", Gateway := "10.0.0.1", Gateway6 := "",
    DNSServers := ["1.1.1.1"] }

/-- A static entry with neither a MAC address nor a gateway and a malformed address: three
checks fail, the missing MAC address first. -/
def brokenEntry : NetworkConfigData :=
  { MacAddress := "", DHCP4 := false, DHCP6 := false,
    IPAddress := "10.0.0.300", IPV6Address := "", Gateway := "", Gateway6 := "",
    DNSServers := [] }

/-- An entry with no DHCP and no address at all. -/
def emptyEntry : NetworkConfigData :=
  { MacAddress := "", DHCP4 := false, DHCP6 := false,
    IPAddress := "", IPV6Address := "", Gateway := "", Gateway6 := "",
    DNSServers := [] }

end cloudinit

namespace vmservice

/-! ## Shared lemmas -/

/-- No call lies between a world and itself. -/
theorem callsDuring_self {σ : Type} (w : World σ) : callsDuring w w = [] := by
  simp [callsDuring]

/-- The calls logged by one client call made after the machine object was rewritten. -/
theorem callsDuring_call {σ : Type} (method : ClientMethod)
    (f : σ → VirtualMachine → TaskResult × σ) (vm : VirtualMachine) (w : World σ)
    (m : ProxmoxMachine) :
    callsDuring w (call method f vm { w with ProxmoxMachine := m }).2 =
      [{ method := method, vm := vm, observed := m, result := (f w.hypervisor vm).1 }] := by
  simp [callsDuring, call]

/-- The calls of a power-on pass are those of `startVirtualMachine`, run on the world in
which the in-progress condition is already written. -/
theorem callsOn_eq {σ : Type} (machineScope : MachineScope σ) (w : World σ)
    (h : machineHasIPAddress w.ProxmoxMachine = true) :
    callsOn machineScope w =
      callsDuring w (startVirtualMachine machineScope.ProxmoxClient machineScope.VirtualMachine
        { w with ProxmoxMachine := (conditions.MarkFalse w.ProxmoxMachine VMProvisionedCondition
            PoweringOnReason ConditionSeverity.ConditionSeverityInfo "") }).2 := by
  unfold callsOn reconcilePowerStateOn
  simp only [h, Bool.not_true, Bool.false_eq_true, if_false]
  split
  · rfl
  · split <;> rfl

/-- The calls of a power-off pass are those of `stopVirtualMachine`, run on the world in
which the in-progress condition is already written. -/
theorem callsOff_eq {σ : Type} (machineScope : MachineScope σ) (w : World σ) :
    callsOff machineScope w =
      callsDuring w (stopVirtualMachine machineScope.ProxmoxClient machineScope.VirtualMachine
        { w with ProxmoxMachine := (conditions.MarkFalse w.ProxmoxMachine VMProvisionedCondition
            PoweringOffReason ConditionSeverity.ConditionSeverityInfo "") }).2 := by
  unfold callsOff reconcilePowerStateOff
  dsimp only
  split
  · rfl
  · split <;> rfl

/-- The world `startVirtualMachine` leaves: that of the one call it dispatches, if any. -/
theorem startVirtualMachine_world {σ : Type} (client : Client σ) (vm : VirtualMachine)
    (w : World σ) :
    (startVirtualMachine client vm w).2 =
      if vm.IsPaused then (call ClientMethod.ResumeVM client.ResumeVM vm w).2
      else if vm.IsStopped || vm.IsHibernated then
        (call ClientMethod.StartVM client.StartVM vm w).2
      else w := by
  unfold startVirtualMachine
  split
  · dsimp only; split <;> rfl
  · split
    · dsimp only; split <;> rfl
    · rfl

/-- The world `stopVirtualMachine` leaves: that of the one call it dispatches, if any. -/
theorem stopVirtualMachine_world {σ : Type} (client : Client σ) (vm : VirtualMachine)
    (w : World σ) :
    (stopVirtualMachine client vm w).2 =
      if vm.IsStopped then w else (call ClientMethod.ShutdownVM client.ShutdownVM vm w).2 := by
  unfold stopVirtualMachine
  split
  · rfl
  · dsimp only; split <;> rfl

/-- Two conditions in the same state are equal: the state is all a condition holds here. -/
theorem conditions.hasSameState_eq (i j : Condition) (h : conditions.hasSameState i j = true) :
    i = j := by
  cases i
  cases j
  simp only [conditions.hasSameState, Bool.and_eq_true, beq_iff_eq] at h
  obtain ⟨⟨⟨⟨h1, h2⟩, h3⟩, h4⟩, h5⟩ := h
  simp_all

/-- After `conditions.Set`, the condition stored under the type of the new condition is the
new condition. -/
theorem conditions.find_setLoop (c : Condition) (l : List Condition) :
    (conditions.setLoop c l).find? (fun x => x.Type_ == c.Type_) = some c := by
  induction l with
  | nil => simp [conditions.setLoop]
  | cons e rest ih =>
    unfold conditions.setLoop
    by_cases ht : (e.Type_ == c.Type_) = true
    · rw [if_pos ht]
      by_cases hs : conditions.hasSameState e c = true
      · have := conditions.hasSameState_eq e c hs
        subst this
        simp
      · simp [hs]
    · rw [if_neg ht]
      simp only [List.find?_cons, ht]
      exact ih

/-- Reading back the condition written by `conditions.MarkFalse`. -/
theorem conditions.Get_MarkFalse (m : ProxmoxMachine) (t reason : String)
    (severity : ConditionSeverity) (messageFormat : String) :
    conditions.Get (conditions.MarkFalse m t reason severity messageFormat) t =
      some (conditions.FalseCondition t reason severity messageFormat) := by
  have h := conditions.find_setLoop (conditions.FalseCondition t reason severity messageFormat)
    m.Status.Conditions
  simpa [conditions.Get, conditions.MarkFalse, conditions.Set, conditions.FalseCondition] using h

/-- The function `conditions.MarkFalse` leaves the task reference alone. -/
theorem conditions.TaskRef_MarkFalse (m : ProxmoxMachine) (t reason : String)
    (severity : ConditionSeverity) (messageFormat : String) :
    (conditions.MarkFalse m t reason severity messageFormat).Status.TaskRef = m.Status.TaskRef := by
  rfl

/-- A client call leaves the machine object alone. -/
theorem call_machine {σ : Type} (method : ClientMethod)
    (f : σ → VirtualMachine → TaskResult × σ) (vm : VirtualMachine) (w : World σ) :
    (call method f vm w).2.ProxmoxMachine = w.ProxmoxMachine := by
  rfl

/-- What a client call returns is what the client method returns. -/
theorem call_result {σ : Type} (method : ClientMethod)
    (f : σ → VirtualMachine → TaskResult × σ) (vm : VirtualMachine) (w : World σ) :
    (call method f vm w).1 = (f w.hypervisor vm).1 := by
  rfl

/-- A format without a percent sign is copied as it is. -/
theorem fmt.doPrintf_of_no_percent (l : List Char) :
    ∀ fuel : Nat, l.length ≤ fuel → '%' ∉ l → fmt.doPrintf fuel l = l := by
  induction l with
  | nil => intro fuel _ _; cases fuel <;> rfl
  | cons c cs ih =>
    intro fuel hf hp
    cases fuel with
    | zero => simp at hf
    | succ n =>
      have hc : (c == '%') = false := by
        simp only [List.mem_cons, not_or] at hp
        simpa using fun h => hp.1 h.symm
      have hcs : '%' ∉ cs := fun h => hp (List.mem_cons_of_mem _ h)
      have hn : cs.length ≤ n := by simpa using hf
      simp [fmt.doPrintf, hc, ih n hn hcs]

/-- The call `fmt.Sprintf(format)` returns the format when it holds no percent sign. -/
theorem fmt.Sprintf_of_no_percent (format : String) (h : '%' ∉ format.toList) :
    fmt.Sprintf format = format := by
  unfold fmt.Sprintf
  rw [fmt.doPrintf_of_no_percent format.toList format.length (le_of_eq rfl) h]
  rfl

/-- The message of the failure condition is the text of the error when that text holds no
percent sign. -/
theorem failedCondition_message (reason : String) (err : GoError)
    (h : '%' ∉ err.Error.toList) : (failedCondition reason err).Message = err.Error :=
  fmt.Sprintf_of_no_percent err.Error h


/-- A hibernated VM is reported stopped as well. -/
theorem proxmox.IsStopped_of_IsHibernated (v : proxmox.VirtualMachineData)
    (h : v.IsHibernated = true) : v.IsStopped = true := by
  simp only [proxmox.VirtualMachineData.IsHibernated, Bool.and_eq_true] at h
  simp only [proxmox.VirtualMachineData.IsStopped, Bool.and_eq_true]
  exact h.1

/-- A paused VM is not reported stopped. -/
theorem proxmox.IsStopped_of_IsPaused (v : proxmox.VirtualMachineData)
    (h : v.IsPaused = true) : v.IsStopped = false := by
  simp only [proxmox.VirtualMachineData.IsPaused, Bool.and_eq_true, beq_iff_eq] at h
  simp [proxmox.VirtualMachineData.IsStopped, h.1, proxmox.StatusVirtualMachineRunning,
    proxmox.StatusVirtualMachineStopped]

/-- A running VM is not reported stopped. -/
theorem proxmox.IsStopped_of_IsRunning (v : proxmox.VirtualMachineData)
    (h : v.IsRunning = true) : v.IsStopped = false := by
  simp only [proxmox.VirtualMachineData.IsRunning, Bool.and_eq_true, beq_iff_eq] at h
  simp [proxmox.VirtualMachineData.IsStopped, h.1, proxmox.StatusVirtualMachineRunning,
    proxmox.StatusVirtualMachineStopped]

/-- A dot that ends the format is taken as the verb, with or without a width or an index
before it. -/
theorem fmt.Sprintf_trailing_dot :
    fmt.Sprintf "%." = "%!.(MISSING)" ∧ fmt.Sprintf "%1." = "%!.(MISSING)" ∧
    fmt.Sprintf "%[1]." = "%!.(BADINDEX)" := by
  decide

/-- A power-off pass on a VM that is not reported stopped makes exactly one ShutdownVM call
and no ResumeVM or StartVM call. -/
theorem reconcilePowerStateOff_not_stopped {σ : Type} (machineScope : MachineScope σ)
    (w : World σ) (hs : machineScope.VirtualMachine.IsStopped = false) :
    callCount ClientMethod.ShutdownVM (callsOff machineScope w) = 1 ∧
    callCount ClientMethod.ResumeVM (callsOff machineScope w) = 0 ∧
    callCount ClientMethod.StartVM (callsOff machineScope w) = 0 := by
  rw [callsOff_eq, stopVirtualMachine_world]
  simp [hs, callsDuring, call, callCount]

/-- A power-off pass on a VM that is reported stopped makes no client call and returns
requeue=false, err=nil. -/
theorem reconcilePowerStateOff_already_stopped {σ : Type} (machineScope : MachineScope σ)
    (w : World σ) (hs : machineScope.VirtualMachine.IsStopped = true) :
    callsOff machineScope w = [] ∧
    (reconcilePowerStateOff machineScope w).requeue = false ∧
    (reconcilePowerStateOff machineScope w).err = none := by
  simp [callsOff, callsDuring, reconcilePowerStateOff, stopVirtualMachine, hs]

/-! ## Power-on without a network address -/

/-- C1: if the machine has no IP address, `reconcilePowerStateOn` returns requeue=true and
err=nil and makes no call to ResumeVM, StartVM or ShutdownVM, whatever the VM status, the
prior machine state and the behaviour of the client. -/
theorem reconcilePowerStateOn_waits_for_address {σ : Type} (machineScope : MachineScope σ)
    (w : World σ) (h : machineHasIPAddress w.ProxmoxMachine = false) :
    (reconcilePowerStateOn machineScope w).requeue = true ∧
    (reconcilePowerStateOn machineScope w).err = none ∧
    callCount ClientMethod.ResumeVM (callsOn machineScope w) = 0 ∧
    callCount ClientMethod.StartVM (callsOn machineScope w) = 0 ∧
    callCount ClientMethod.ShutdownVM (callsOn machineScope w) = 0 := by
  simp [callsOn, reconcilePowerStateOn, h, callsDuring, callCount]

/-- Witness of C1: a stopped VM 100 whose machine has no address yet, with a client that
would hand out a task. -/
theorem reconcilePowerStateOn_waits_for_address_witness :
    machineHasIPAddress (freshWorld (newMachine false)).ProxmoxMachine = false ∧
    (reconcilePowerStateOn ⟨stoppedVM, constClient taskReply⟩
      (freshWorld (newMachine false))).requeue = true ∧
    (reconcilePowerStateOn ⟨stoppedVM, constClient taskReply⟩
      (freshWorld (newMachine false))).err = none ∧
    callCount ClientMethod.StartVM
      (callsOn ⟨stoppedVM, constClient taskReply⟩ (freshWorld (newMachine false))) = 0 :=
  have h := reconcilePowerStateOn_waits_for_address
    ⟨stoppedVM, constClient taskReply⟩ (freshWorld (newMachine false)) rfl
  ⟨rfl, h.1, h.2.1, h.2.2.2.1⟩

/-! ## Which call a pass dispatches -/

/-- C2: a pass of `reconcilePowerStateOn` with a network address makes exactly one ResumeVM
call and no StartVM call if the VM is paused, exactly one StartVM call and no ResumeVM call
if the VM is not paused and is stopped or hibernated, and never a ShutdownVM call. -/
theorem reconcilePowerStateOn_dispatch {σ : Type} (machineScope : MachineScope σ)
    (w : World σ) (h : machineHasIPAddress w.ProxmoxMachine = true) :
    (machineScope.VirtualMachine.IsPaused = true →
      callCount ClientMethod.ResumeVM (callsOn machineScope w) = 1 ∧
      callCount ClientMethod.StartVM (callsOn machineScope w) = 0) ∧
    (machineScope.VirtualMachine.IsPaused = false →
      (machineScope.VirtualMachine.IsStopped = true ∨
        machineScope.VirtualMachine.IsHibernated = true) →
      callCount ClientMethod.StartVM (callsOn machineScope w) = 1 ∧
      callCount ClientMethod.ResumeVM (callsOn machineScope w) = 0) ∧
    callCount ClientMethod.ShutdownVM (callsOn machineScope w) = 0 := by
  rw [callsOn_eq machineScope w h, startVirtualMachine_world]
  refine ⟨?_, ?_, ?_⟩
  · intro hp
    simp [hp, callsDuring, call, callCount]
  · intro hp hs
    have hs' : (machineScope.VirtualMachine.IsStopped ||
        machineScope.VirtualMachine.IsHibernated) = true := by
      simpa using hs
    simp [hp, hs', callsDuring, call, callCount]
  · split
    · simp [callsDuring, call, callCount]
    · split
      · simp [callsDuring, call, callCount]
      · simp [callsDuring, callCount]

/-- Witness of C2: a paused VM 100 gets one ResumeVM call, a stopped VM 100 one StartVM
call. -/
theorem reconcilePowerStateOn_dispatch_witness :
    machineHasIPAddress (freshWorld (newMachine true)).ProxmoxMachine = true ∧
    (callCount ClientMethod.ResumeVM
        (callsOn ⟨pausedVM, constClient taskReply⟩ (freshWorld (newMachine true))) = 1 ∧
      callCount ClientMethod.StartVM
        (callsOn ⟨pausedVM, constClient taskReply⟩ (freshWorld (newMachine true))) = 0) ∧
    (callCount ClientMethod.StartVM
        (callsOn ⟨stoppedVM, constClient taskReply⟩ (freshWorld (newMachine true))) = 1 ∧
      callCount ClientMethod.ResumeVM
        (callsOn ⟨stoppedVM, constClient taskReply⟩ (freshWorld (newMachine true))) = 0) :=
  ⟨rfl,
    (reconcilePowerStateOn_dispatch ⟨pausedVM, constClient taskReply⟩
      (freshWorld (newMachine true)) rfl).1 rfl,
    (reconcilePowerStateOn_dispatch ⟨stoppedVM, constClient taskReply⟩
      (freshWorld (newMachine true)) rfl).2.1 rfl (Or.inl rfl)⟩

/-- C3, refuted as stated: VM 100 hibernated, which go-proxmox reports with IsHibernated()
and IsStopped() both true, gets no ShutdownVM call from `reconcilePowerStateOff`. -/
theorem hibernated_power_off_makes_no_call :
    hibernatedData.IsHibernated = true ∧
    hibernatedData.observe.IsStopped = true ∧
    callCount ClientMethod.ShutdownVM
      (callsOff ⟨hibernatedData.observe, constClient taskReply⟩
        (freshWorld (newMachine true))) = 0 ∧
    ¬ callCount ClientMethod.ShutdownVM
      (callsOff ⟨hibernatedData.observe, constClient taskReply⟩
        (freshWorld (newMachine true))) = 1 := by
  decide

/-- C3, as amended: for every VM for which IsStopped() answers false, which every Running
and every Paused VM does, `reconcilePowerStateOff` makes exactly one ShutdownVM call and no
ResumeVM or StartVM call; a Hibernated VM answers IsStopped() as well and gets no client
call. -/
theorem reconcilePowerStateOff_dispatch {σ : Type} (machineScope : MachineScope σ)
    (w : World σ) :
    (machineScope.VirtualMachine.IsStopped = false →
      callCount ClientMethod.ShutdownVM (callsOff machineScope w) = 1 ∧
      callCount ClientMethod.ResumeVM (callsOff machineScope w) = 0 ∧
      callCount ClientMethod.StartVM (callsOff machineScope w) = 0) ∧
    (∀ v : proxmox.VirtualMachineData, machineScope.VirtualMachine = v.observe →
      (v.IsRunning = true ∨ v.IsPaused = true →
        callCount ClientMethod.ShutdownVM (callsOff machineScope w) = 1 ∧
        callCount ClientMethod.ResumeVM (callsOff machineScope w) = 0 ∧
        callCount ClientMethod.StartVM (callsOff machineScope w) = 0) ∧
      (v.IsHibernated = true → callsOff machineScope w = [])) := by
  refine ⟨reconcilePowerStateOff_not_stopped machineScope w, ?_⟩
  intro v hv
  constructor
  · intro h
    apply reconcilePowerStateOff_not_stopped machineScope w
    rw [hv]
    rcases h with h | h
    · exact proxmox.IsStopped_of_IsRunning v h
    · exact proxmox.IsStopped_of_IsPaused v h
  · intro h
    apply (reconcilePowerStateOff_already_stopped machineScope w ?_).1
    rw [hv]
    exact proxmox.IsStopped_of_IsHibernated v h

/-- Witness of C3 as amended: VM 100 running gets one ShutdownVM call, VM 100 paused too,
VM 100 hibernated none. -/
theorem reconcilePowerStateOff_dispatch_witness :
    (callCount ClientMethod.ShutdownVM
        (callsOff ⟨runningVM, constClient taskReply⟩ (freshWorld (newMachine true))) = 1 ∧
      callCount ClientMethod.ResumeVM
        (callsOff ⟨runningVM, constClient taskReply⟩ (freshWorld (newMachine true))) = 0 ∧
      callCount ClientMethod.StartVM
        (callsOff ⟨runningVM, constClient taskReply⟩ (freshWorld (newMachine true))) = 0) ∧
    (callCount ClientMethod.ShutdownVM
        (callsOff ⟨pausedData.observe, constClient taskReply⟩
          (freshWorld (newMachine true))) = 1 ∧
      callCount ClientMethod.ResumeVM
        (callsOff ⟨pausedData.observe, constClient taskReply⟩
          (freshWorld (newMachine true))) = 0 ∧
      callCount ClientMethod.StartVM
        (callsOff ⟨pausedData.observe, constClient taskReply⟩
          (freshWorld (newMachine true))) = 0) ∧
    callsOff ⟨hibernatedData.observe, constClient taskReply⟩
      (freshWorld (newMachine true)) = [] :=
  ⟨(reconcilePowerStateOff_dispatch ⟨runningVM, constClient taskReply⟩
      (freshWorld (newMachine true))).1 rfl,
    ((reconcilePowerStateOff_dispatch ⟨pausedData.observe, constClient taskReply⟩
      (freshWorld (newMachine true))).2 pausedData rfl).1 (Or.inr (by decide)),
    ((reconcilePowerStateOff_dispatch ⟨hibernatedData.observe, constClient taskReply⟩
      (freshWorld (newMachine true))).2 hibernatedData rfl).2 (by decide)⟩

/-! ## A returned task handle -/

/-- C4: in both directions, whenever the dispatched client call succeeds and returns a task
handle, the pass ends with the stored task reference equal to the identifier of that task
and returns requeue=true, err=nil. -/
theorem task_handle_is_stored {σ : Type} (machineScope : MachineScope σ) (w : World σ)
    (t : Task) :
    (∀ c ∈ callsOn machineScope w, c.result = (some t, none) →
      taskRef (reconcilePowerStateOn machineScope w).world = some t.UPID ∧
      (reconcilePowerStateOn machineScope w).requeue = true ∧
      (reconcilePowerStateOn machineScope w).err = none) ∧
    (∀ c ∈ callsOff machineScope w, c.result = (some t, none) →
      taskRef (reconcilePowerStateOff machineScope w).world = some t.UPID ∧
      (reconcilePowerStateOff machineScope w).requeue = true ∧
      (reconcilePowerStateOff machineScope w).err = none) := by
  constructor
  · intro c hc hres
    cases hip : machineHasIPAddress w.ProxmoxMachine with
    | false => simp [callsOn, reconcilePowerStateOn, hip, callsDuring] at hc
    | true =>
      rw [callsOn_eq machineScope w hip, startVirtualMachine_world] at hc
      cases hp : machineScope.VirtualMachine.IsPaused with
      | true =>
        simp only [hp, if_true] at hc
        rw [callsDuring_call, List.mem_singleton] at hc
        subst hc
        simp only at hres
        simp [reconcilePowerStateOn, startVirtualMachine, hip, hp, call, hres, taskRef,
          setTaskRef]
      | false =>
        cases hs : (machineScope.VirtualMachine.IsStopped ||
            machineScope.VirtualMachine.IsHibernated) with
        | true =>
          simp only [hp, hs, if_true, Bool.false_eq_true, if_false] at hc
          rw [callsDuring_call, List.mem_singleton] at hc
          subst hc
          simp only at hres
          simp [reconcilePowerStateOn, startVirtualMachine, hip, hp, hs, call, hres, taskRef,
            setTaskRef]
        | false =>
          simp [hp, hs, callsDuring] at hc
  · intro c hc hres
    rw [callsOff_eq, stopVirtualMachine_world] at hc
    cases hs : machineScope.VirtualMachine.IsStopped with
    | true => simp [hs, callsDuring] at hc
    | false =>
      simp only [hs, Bool.false_eq_true, if_false] at hc
      rw [callsDuring_call, List.mem_singleton] at hc
      subst hc
      simp only at hres
      simp [reconcilePowerStateOff, stopVirtualMachine, hs, call, hres, taskRef, setTaskRef]


/-- Witness of C4: VM 100 paused, ResumeVM returning the task "UPID:100:..."; and VM 100
running on the way off, ShutdownVM returning the same task. -/
theorem task_handle_is_stored_witness :
    (taskRef (reconcilePowerStateOn ⟨pausedVM, constClient taskReply⟩
        (freshWorld (newMachine true))).world = some "UPID:100:..." ∧
      (reconcilePowerStateOn ⟨pausedVM, constClient taskReply⟩
        (freshWorld (newMachine true))).requeue = true ∧
      (reconcilePowerStateOn ⟨pausedVM, constClient taskReply⟩
        (freshWorld (newMachine true))).err = none) ∧
    (taskRef (reconcilePowerStateOff ⟨runningVM, constClient taskReply⟩
        (freshWorld (newMachine true))).world = some "UPID:100:..." ∧
      (reconcilePowerStateOff ⟨runningVM, constClient taskReply⟩
        (freshWorld (newMachine true))).requeue = true ∧
      (reconcilePowerStateOff ⟨runningVM, constClient taskReply⟩
        (freshWorld (newMachine true))).err = none) :=
  ⟨(task_handle_is_stored ⟨pausedVM, constClient taskReply⟩ (freshWorld (newMachine true))
      { UPID := "UPID:100:..." }).1
      { method := ClientMethod.ResumeVM, vm := pausedVM,
        observed := conditions.MarkFalse (newMachine true) VMProvisionedCondition
          PoweringOnReason ConditionSeverity.ConditionSeverityInfo "",
        result := taskReply }
      (by decide) rfl,
    (task_handle_is_stored ⟨runningVM, constClient taskReply⟩ (freshWorld (newMachine true))
      { UPID := "UPID:100:..." }).2
      { method := ClientMethod.ShutdownVM, vm := runningVM,
        observed := conditions.MarkFalse (newMachine true) VMProvisionedCondition
          PoweringOffReason ConditionSeverity.ConditionSeverityInfo "",
        result := taskReply }
      (by decide) rfl⟩

/-! ## A failed client call -/

/-- A failed client call in either direction: the pass returns requeue=false and an error
that wraps the error of the client, writes the failure condition with the text of the
returned error formatted by `fmt.Sprintf`, and leaves the stored task reference unchanged. -/
theorem failed_call_is_reported {σ : Type} (machineScope : MachineScope σ) (w : World σ)
    (e : GoError) :
    (∀ c ∈ callsOn machineScope w, c.result.2 = some e →
      (reconcilePowerStateOn machineScope w).requeue = false ∧
      (∃ err, (reconcilePowerStateOn machineScope w).err = some err ∧ err.Unwrap = some e ∧
        provisioned (reconcilePowerStateOn machineScope w).world =
          some (failedCondition PoweringOnFailedReason err)) ∧
      taskRef (reconcilePowerStateOn machineScope w).world = taskRef w) ∧
    (∀ c ∈ callsOff machineScope w, c.result.2 = some e →
      (reconcilePowerStateOff machineScope w).requeue = false ∧
      (∃ err, (reconcilePowerStateOff machineScope w).err = some err ∧ err.Unwrap = some e ∧
        provisioned (reconcilePowerStateOff machineScope w).world =
          some (failedCondition PoweringOffFailedReason err)) ∧
      taskRef (reconcilePowerStateOff machineScope w).world = taskRef w) := by
  constructor
  · intro c hc hres
    cases hip : machineHasIPAddress w.ProxmoxMachine with
    | false => simp [callsOn, reconcilePowerStateOn, hip, callsDuring] at hc
    | true =>
      rw [callsOn_eq machineScope w hip, startVirtualMachine_world] at hc
      cases hp : machineScope.VirtualMachine.IsPaused with
      | true =>
        simp only [hp, if_true] at hc
        rw [callsDuring_call, List.mem_singleton] at hc
        subst hc
        simp only at hres
        simp [reconcilePowerStateOn, startVirtualMachine, hip, hp, call, hres, taskRef,
          provisioned, conditions.Get_MarkFalse, conditions.TaskRef_MarkFalse,
          conditions.FalseCondition, failedCondition, fmt.Errorf, GoError.Unwrap]
      | false =>
        cases hs : (machineScope.VirtualMachine.IsStopped ||
            machineScope.VirtualMachine.IsHibernated) with
        | true =>
          simp only [hp, hs, if_true, Bool.false_eq_true, if_false] at hc
          rw [callsDuring_call, List.mem_singleton] at hc
          subst hc
          simp only at hres
          simp [reconcilePowerStateOn, startVirtualMachine, hip, hp, hs, call, hres, taskRef,
            provisioned, conditions.Get_MarkFalse, conditions.TaskRef_MarkFalse,
            conditions.FalseCondition, failedCondition, fmt.Errorf, GoError.Unwrap]
        | false =>
          simp [hp, hs, callsDuring] at hc
  · intro c hc hres
    rw [callsOff_eq, stopVirtualMachine_world] at hc
    cases hs : machineScope.VirtualMachine.IsStopped with
    | true => simp [hs, callsDuring] at hc
    | false =>
      simp only [hs, Bool.false_eq_true, if_false] at hc
      rw [callsDuring_call, List.mem_singleton] at hc
      subst hc
      simp only at hres
      simp [reconcilePowerStateOff, stopVirtualMachine, hs, call, hres, taskRef,
        provisioned, conditions.Get_MarkFalse, conditions.TaskRef_MarkFalse,
        conditions.FalseCondition, failedCondition, fmt.Errorf, GoError.Unwrap]

/-- C5, at the failing input: VM 100 running, target Off, ShutdownVM failing with the text
"disk usage 100% reached". The pass returns requeue=false and an error wrapping the error of
the client, the reason is PoweringOffFailed and the task reference is unchanged, but the
message of the condition is not the text of the returned error: the percent sign was read
as a formatting verb. -/
theorem failed_call_message_is_reformatted :
    (reconcilePowerStateOff ⟨runningVM, constClient percentReply⟩
      (freshWorld (newMachine true))).requeue = false ∧
    (reconcilePowerStateOff ⟨runningVM, constClient percentReply⟩
      (freshWorld (newMachine true))).err.map GoError.Error =
        some "unable to shutdown the virtual machine 100: disk usage 100% reached" ∧
    (provisioned (reconcilePowerStateOff ⟨runningVM, constClient percentReply⟩
      (freshWorld (newMachine true))).world).map Condition.Reason = some "PoweringOffFailed" ∧
    (provisioned (reconcilePowerStateOff ⟨runningVM, constClient percentReply⟩
      (freshWorld (newMachine true))).world).map Condition.Message =
        some "unable to shutdown the virtual machine 100: disk usage 100%!r(MISSING)eached" := by
  decide


/-! ## Nothing to do -/

/-- A power-on pass with a network address on a VM that is neither paused, stopped nor
hibernated: no client call, requeue=false, err=nil, task reference unchanged. -/
theorem reconcilePowerStateOn_nothing_to_do {σ : Type} (machineScope : MachineScope σ)
    (w : World σ) (hip : machineHasIPAddress w.ProxmoxMachine = true)
    (hp : machineScope.VirtualMachine.IsPaused = false)
    (hs : machineScope.VirtualMachine.IsStopped = false)
    (hh : machineScope.VirtualMachine.IsHibernated = false) :
    callsOn machineScope w = [] ∧
    (reconcilePowerStateOn machineScope w).requeue = false ∧
    (reconcilePowerStateOn machineScope w).err = none ∧
    taskRef (reconcilePowerStateOn machineScope w).world = taskRef w := by
  simp [callsOn, callsDuring, reconcilePowerStateOn, startVirtualMachine, hip, hp, hs, hh,
    taskRef, conditions.TaskRef_MarkFalse]

/-- C6: for every VM that is Running (not paused, stopped or hibernated) and has a network
address, `reconcilePowerStateOn` makes no hypervisor client call, returns requeue=false and
err=nil, and leaves the stored task reference unchanged. -/
theorem reconcilePowerStateOn_running {σ : Type} (machineScope : MachineScope σ)
    (w : World σ) (hip : machineHasIPAddress w.ProxmoxMachine = true)
    (_hr : machineScope.VirtualMachine.IsRunning = true)
    (hp : machineScope.VirtualMachine.IsPaused = false)
    (hs : machineScope.VirtualMachine.IsStopped = false)
    (hh : machineScope.VirtualMachine.IsHibernated = false) :
    callsOn machineScope w = [] ∧
    (reconcilePowerStateOn machineScope w).requeue = false ∧
    (reconcilePowerStateOn machineScope w).err = none ∧
    taskRef (reconcilePowerStateOn machineScope w).world = taskRef w :=
  reconcilePowerStateOn_nothing_to_do machineScope w hip hp hs hh

/-- Witness of C6: VM 100 running, with a network address. -/
theorem reconcilePowerStateOn_running_witness :
    callsOn ⟨runningVM, constClient taskReply⟩ (freshWorld (newMachine true)) = [] ∧
    (reconcilePowerStateOn ⟨runningVM, constClient taskReply⟩
      (freshWorld (newMachine true))).requeue = false ∧
    (reconcilePowerStateOn ⟨runningVM, constClient taskReply⟩
      (freshWorld (newMachine true))).err = none ∧
    taskRef (reconcilePowerStateOn ⟨runningVM, constClient taskReply⟩
      (freshWorld (newMachine true))).world = taskRef (freshWorld (newMachine true)) :=
  reconcilePowerStateOn_running ⟨runningVM, constClient taskReply⟩
    (freshWorld (newMachine true)) rfl rfl rfl rfl rfl

/-- C7: for every VM whose observed status is Stopped, `reconcilePowerStateOff` makes no
hypervisor client call, returns requeue=false and err=nil, and leaves the stored task
reference unchanged. -/
theorem reconcilePowerStateOff_stopped {σ : Type} (machineScope : MachineScope σ)
    (w : World σ) (hs : machineScope.VirtualMachine.IsStopped = true) :
    callsOff machineScope w = [] ∧
    (reconcilePowerStateOff machineScope w).requeue = false ∧
    (reconcilePowerStateOff machineScope w).err = none ∧
    taskRef (reconcilePowerStateOff machineScope w).world = taskRef w := by
  simp [callsOff, callsDuring, reconcilePowerStateOff, stopVirtualMachine, hs, taskRef,
    conditions.TaskRef_MarkFalse]

/-- Witness of C7: VM 100 stopped, target Off. -/
theorem reconcilePowerStateOff_stopped_witness :
    callsOff ⟨stoppedVM, constClient taskReply⟩ (freshWorld (newMachine true)) = [] ∧
    (reconcilePowerStateOff ⟨stoppedVM, constClient taskReply⟩
      (freshWorld (newMachine true))).requeue = false ∧
    (reconcilePowerStateOff ⟨stoppedVM, constClient taskReply⟩
      (freshWorld (newMachine true))).err = none ∧
    taskRef (reconcilePowerStateOff ⟨stoppedVM, constClient taskReply⟩
      (freshWorld (newMachine true))).world = taskRef (freshWorld (newMachine true)) :=
  reconcilePowerStateOff_stopped ⟨stoppedVM, constClient taskReply⟩
    (freshWorld (newMachine true)) rfl

/-! ## At most one call per pass -/

/-- C8: whatever the status predicates answer, whatever the network readiness and whatever
the client does, a single pass of `reconcilePowerStateOn` or `reconcilePowerStateOff` issues
at most one client call, ResumeVM, StartVM and ShutdownVM counted together. -/
theorem at_most_one_call_per_pass {σ : Type} (machineScope : MachineScope σ) (w : World σ) :
    ((callsOn machineScope w).length ≤ 1 ∧
      callCount ClientMethod.ResumeVM (callsOn machineScope w) +
        callCount ClientMethod.StartVM (callsOn machineScope w) +
        callCount ClientMethod.ShutdownVM (callsOn machineScope w) ≤ 1) ∧
    ((callsOff machineScope w).length ≤ 1 ∧
      callCount ClientMethod.ResumeVM (callsOff machineScope w) +
        callCount ClientMethod.StartVM (callsOff machineScope w) +
        callCount ClientMethod.ShutdownVM (callsOff machineScope w) ≤ 1) := by
  constructor
  · cases hip : machineHasIPAddress w.ProxmoxMachine with
    | false => simp [callsOn, reconcilePowerStateOn, hip, callsDuring, callCount]
    | true =>
      rw [callsOn_eq machineScope w hip, startVirtualMachine_world]
      split
      · rw [callsDuring_call]; simp [callCount]
      · split
        · rw [callsDuring_call]; simp [callCount]
        · simp [callsDuring, callCount]
  · rw [callsOff_eq, stopVirtualMachine_world]
    split
    · simp [callsDuring, callCount]
    · rw [callsDuring_call]; simp [callCount]

/-! ## The transition table -/

/-- C9, refuted as stated: with VM 100 paused (running, monitor status "paused") and the
target Off, the pass does act: it issues one ShutdownVM call, and with a client that returns
a task it asks for a requeue. -/
theorem paused_power_off_acts :
    pausedData.IsPaused = true ∧ pausedData.observe = pausedVM ∧
    pausedVM.IsPaused = true ∧
    callCount ClientMethod.ShutdownVM
      (callsOff ⟨pausedVM, constClient taskReply⟩ (freshWorld (newMachine true))) = 1 ∧
    ¬ (callsOff ⟨pausedVM, constClient taskReply⟩ (freshWorld (newMachine true)) = [] ∧
      (reconcilePowerStateOff ⟨pausedVM, constClient taskReply⟩
        (freshWorld (newMachine true))).requeue = false ∧
      (reconcilePowerStateOff ⟨pausedVM, constClient taskReply⟩
        (freshWorld (newMachine true))).err = none) := by
  decide

/-- C9, as amended: when the target is Off and the observed status is Hibernated, the
power-off pass takes no action: `reconcilePowerStateOff` issues no hypervisor client call
and returns requeue=false, err=nil; when the observed status is Paused, it issues exactly
one client call, a ShutdownVM call on that VM. -/
theorem paused_or_hibernated_power_off {σ : Type} (client : Client σ)
    (v : proxmox.VirtualMachineData) (w : World σ) :
    (v.IsHibernated = true →
      callsOff ⟨v.observe, client⟩ w = [] ∧
      (reconcilePowerStateOff ⟨v.observe, client⟩ w).requeue = false ∧
      (reconcilePowerStateOff ⟨v.observe, client⟩ w).err = none) ∧
    (v.IsPaused = true →
      ∃ c, callsOff ⟨v.observe, client⟩ w = [c] ∧ c.method = ClientMethod.ShutdownVM ∧
        c.vm = v.observe) := by
  constructor
  · intro h
    exact reconcilePowerStateOff_already_stopped ⟨v.observe, client⟩ w
      (proxmox.IsStopped_of_IsHibernated v h)
  · intro h
    have hs : v.observe.IsStopped = false := proxmox.IsStopped_of_IsPaused v h
    rw [callsOff_eq, stopVirtualMachine_world]
    simp only [hs, Bool.false_eq_true, if_false]
    rw [callsDuring_call]
    exact ⟨_, rfl, rfl, rfl⟩

/-- Witness of C9 as amended: VM 100 hibernated is left alone, VM 100 paused gets one
ShutdownVM call. -/
theorem paused_or_hibernated_power_off_witness :
    (hibernatedData.IsHibernated = true ∧
      callsOff ⟨hibernatedData.observe, constClient taskReply⟩
        (freshWorld (newMachine true)) = [] ∧
      (reconcilePowerStateOff ⟨hibernatedData.observe, constClient taskReply⟩
        (freshWorld (newMachine true))).requeue = false ∧
      (reconcilePowerStateOff ⟨hibernatedData.observe, constClient taskReply⟩
        (freshWorld (newMachine true))).err = none) ∧
    (pausedData.IsPaused = true ∧
      ∃ c, callsOff ⟨pausedData.observe, constClient taskReply⟩
          (freshWorld (newMachine true)) = [c] ∧
        c.method = ClientMethod.ShutdownVM ∧ c.vm = pausedData.observe) :=
  ⟨⟨by decide,
      (paused_or_hibernated_power_off (constClient taskReply) hibernatedData
        (freshWorld (newMachine true))).1 (by decide)⟩,
    ⟨by decide,
      (paused_or_hibernated_power_off (constClient taskReply) pausedData
        (freshWorld (newMachine true))).2 (by decide)⟩⟩

/-- C10, refuted as stated: with VM 100 in an unknown status, a network address and the
target On, no StartVM call is made. -/
theorem unknown_power_on_does_not_start :
    machineHasIPAddress (freshWorld (newMachine true)).ProxmoxMachine = true ∧
    unknownVM.IsRunning = false ∧ unknownVM.IsPaused = false ∧
    unknownVM.IsStopped = false ∧ unknownVM.IsHibernated = false ∧
    ¬ callCount ClientMethod.StartVM
      (callsOn ⟨unknownVM, constClient taskReply⟩ (freshWorld (newMachine true))) = 1 := by
  decide

/-- C10, as amended: when the target is On, the machine has a network address and the
observed status is Unknown (not running, not paused, not stopped, not hibernated), the pass
has nothing to do: it issues no client call, so no StartVM call, and returns requeue=false,
err=nil. -/
theorem reconcilePowerStateOn_unknown {σ : Type} (machineScope : MachineScope σ)
    (w : World σ) (hip : machineHasIPAddress w.ProxmoxMachine = true)
    (_hr : machineScope.VirtualMachine.IsRunning = false)
    (hp : machineScope.VirtualMachine.IsPaused = false)
    (hs : machineScope.VirtualMachine.IsStopped = false)
    (hh : machineScope.VirtualMachine.IsHibernated = false) :
    callsOn machineScope w = [] ∧
    callCount ClientMethod.StartVM (callsOn machineScope w) = 0 ∧
    (reconcilePowerStateOn machineScope w).requeue = false ∧
    (reconcilePowerStateOn machineScope w).err = none := by
  have h := reconcilePowerStateOn_nothing_to_do machineScope w hip hp hs hh
  refine ⟨h.1, ?_, h.2.1, h.2.2.1⟩
  rw [h.1]
  rfl

/-- Witness of C10 as amended: VM 100 in an unknown status, with a network address. -/
theorem reconcilePowerStateOn_unknown_witness :
    callsOn ⟨unknownVM, constClient taskReply⟩ (freshWorld (newMachine true)) = [] ∧
    callCount ClientMethod.StartVM
      (callsOn ⟨unknownVM, constClient taskReply⟩ (freshWorld (newMachine true))) = 0 ∧
    (reconcilePowerStateOn ⟨unknownVM, constClient taskReply⟩
      (freshWorld (newMachine true))).requeue = false ∧
    (reconcilePowerStateOn ⟨unknownVM, constClient taskReply⟩
      (freshWorld (newMachine true))).err = none :=
  reconcilePowerStateOn_unknown ⟨unknownVM, constClient taskReply⟩
    (freshWorld (newMachine true)) rfl rfl rfl rfl rfl

/-! ## The text of a returned error -/

/-- C11: for every VM identifier and every client error, the error returned by a failed pass
has the text "unable to <action> the virtual machine <n>: <text of the client error>",
where the action is "resume" when ResumeVM failed, "start" when StartVM failed and
"shutdown" when ShutdownVM failed; so the text holds the decimal VM identifier and names the
attempted action. -/
theorem failed_call_error_text {σ : Type} (machineScope : MachineScope σ) (w : World σ)
    (e : GoError) :
    (∀ c ∈ callsOn machineScope w, c.result.2 = some e →
      (c.method = ClientMethod.ResumeVM ∨ c.method = ClientMethod.StartVM) ∧
      ∃ err, (reconcilePowerStateOn machineScope w).err = some err ∧
        err.Error = "unable to " ++ actionName c.method ++ " the virtual machine " ++
          toString machineScope.VirtualMachine.VMID ++ ": " ++ e.Error) ∧
    (∀ c ∈ callsOff machineScope w, c.result.2 = some e →
      c.method = ClientMethod.ShutdownVM ∧
      ∃ err, (reconcilePowerStateOff machineScope w).err = some err ∧
        err.Error = "unable to " ++ actionName c.method ++ " the virtual machine " ++
          toString machineScope.VirtualMachine.VMID ++ ": " ++ e.Error) := by
  constructor
  · intro c hc hres
    cases hip : machineHasIPAddress w.ProxmoxMachine with
    | false => simp [callsOn, reconcilePowerStateOn, hip, callsDuring] at hc
    | true =>
      rw [callsOn_eq machineScope w hip, startVirtualMachine_world] at hc
      cases hp : machineScope.VirtualMachine.IsPaused with
      | true =>
        simp only [hp, if_true] at hc
        rw [callsDuring_call, List.mem_singleton] at hc
        subst hc
        simp only at hres
        refine ⟨Or.inl rfl, ?_⟩
        simp [reconcilePowerStateOn, startVirtualMachine, hip, hp, call, hres, fmt.Errorf,
          GoError.Error, actionName]
      | false =>
        cases hs : (machineScope.VirtualMachine.IsStopped ||
            machineScope.VirtualMachine.IsHibernated) with
        | true =>
          simp only [hp, hs, if_true, Bool.false_eq_true, if_false] at hc
          rw [callsDuring_call, List.mem_singleton] at hc
          subst hc
          simp only at hres
          refine ⟨Or.inr rfl, ?_⟩
          simp [reconcilePowerStateOn, startVirtualMachine, hip, hp, hs, call, hres,
            fmt.Errorf, GoError.Error, actionName]
        | false =>
          simp [hp, hs, callsDuring] at hc
  · intro c hc hres
    rw [callsOff_eq, stopVirtualMachine_world] at hc
    cases hs : machineScope.VirtualMachine.IsStopped with
    | true => simp [hs, callsDuring] at hc
    | false =>
      simp only [hs, Bool.false_eq_true, if_false] at hc
      rw [callsDuring_call, List.mem_singleton] at hc
      subst hc
      simp only at hres
      refine ⟨rfl, ?_⟩
      simp [reconcilePowerStateOff, stopVirtualMachine, hs, call, hres, fmt.Errorf,
        GoError.Error, actionName]

/-- Witness of C11: VM 100 running, target Off, ShutdownVM failing with "timeout": the
returned error reads "unable to shutdown the virtual machine 100: timeout". -/
theorem failed_call_error_text_witness :
    ∃ err, (reconcilePowerStateOff ⟨runningVM, constClient timeoutReply⟩
        (freshWorld (newMachine true))).err = some err ∧
      err.Error = "unable to shutdown the virtual machine 100: timeout" :=
  match (failed_call_error_text ⟨runningVM, constClient timeoutReply⟩
      (freshWorld (newMachine true)) (GoError.errorString "timeout")).2
      { method := ClientMethod.ShutdownVM, vm := runningVM,
        observed := conditions.MarkFalse (newMachine true) VMProvisionedCondition
          PoweringOffReason ConditionSeverity.ConditionSeverityInfo "",
        result := timeoutReply }
      (by decide) rfl with
  | ⟨_, err, h1, h2⟩ => ⟨err, h1, h2.trans (by decide)⟩

/-! ## The condition while a call is made -/

/-- Formatting the empty format gives the empty message. -/
theorem fmt.Sprintf_empty : fmt.Sprintf "" = "" := by
  decide

/-- The condition `conditions.MarkFalse` writes with an empty message format. -/
theorem conditions.Get_MarkFalse_inProgress (m : ProxmoxMachine) (reason : String) :
    conditions.Get (conditions.MarkFalse m VMProvisionedCondition reason
      ConditionSeverity.ConditionSeverityInfo "") VMProvisionedCondition =
      some (inProgressCondition reason) := by
  rw [conditions.Get_MarkFalse]
  simp [conditions.FalseCondition, inProgressCondition, fmt.Sprintf_empty]

/-- C12: in every pass that issues a hypervisor call, the machine state visible at the moment
the call is made already has the Provisioned condition set to False with the in-progress
reason (PoweringOn for `reconcilePowerStateOn`, PoweringOff for `reconcilePowerStateOff`),
Info severity and empty message, whatever condition was stored before the pass. -/
theorem condition_written_before_call {σ : Type} (machineScope : MachineScope σ)
    (w : World σ) :
    (∀ c ∈ callsOn machineScope w,
      conditions.Get c.observed VMProvisionedCondition =
        some (inProgressCondition PoweringOnReason)) ∧
    (∀ c ∈ callsOff machineScope w,
      conditions.Get c.observed VMProvisionedCondition =
        some (inProgressCondition PoweringOffReason)) := by
  constructor
  · intro c hc
    cases hip : machineHasIPAddress w.ProxmoxMachine with
    | false => simp [callsOn, reconcilePowerStateOn, hip, callsDuring] at hc
    | true =>
      rw [callsOn_eq machineScope w hip, startVirtualMachine_world] at hc
      split at hc
      · rw [callsDuring_call, List.mem_singleton] at hc
        subst hc
        exact conditions.Get_MarkFalse_inProgress _ _
      · split at hc
        · rw [callsDuring_call, List.mem_singleton] at hc
          subst hc
          exact conditions.Get_MarkFalse_inProgress _ _
        · simp [callsDuring] at hc
  · intro c hc
    rw [callsOff_eq, stopVirtualMachine_world] at hc
    split at hc
    · simp [callsDuring] at hc
    · rw [callsDuring_call, List.mem_singleton] at hc
      subst hc
      exact conditions.Get_MarkFalse_inProgress _ _

/-- Witness of C12: the machine whose last pass failed still shows PoweringOnFailed before
the pass; the ResumeVM call of the next power-on pass and the ShutdownVM call of a
power-off pass both observe the in-progress condition. -/
theorem condition_written_before_call_witness :
    conditions.Get failedMachine VMProvisionedCondition =
      some { Type_ := VMProvisionedCondition, Status := ConditionStatus.ConditionFalse,
             Severity := ConditionSeverity.ConditionSeverityInfo,
             Reason := PoweringOnFailedReason, Message := "timeout" } ∧
    (∃ c, callsOn ⟨pausedVM, constClient taskReply⟩ (freshWorld failedMachine) = [c] ∧
      conditions.Get c.observed VMProvisionedCondition =
        some (inProgressCondition PoweringOnReason)) ∧
    (∃ c, callsOff ⟨pausedVM, constClient taskReply⟩ (freshWorld failedMachine) = [c] ∧
      conditions.Get c.observed VMProvisionedCondition =
        some (inProgressCondition PoweringOffReason)) :=
  ⟨by decide,
    ⟨_, rfl, (condition_written_before_call ⟨pausedVM, constClient taskReply⟩
      (freshWorld failedMachine)).1 _ (List.mem_singleton.2 rfl)⟩,
    ⟨_, rfl, (condition_written_before_call ⟨pausedVM, constClient taskReply⟩
      (freshWorld failedMachine)).2 _ (List.mem_singleton.2 rfl)⟩⟩

/-! ## The frame of a waiting pass -/

/-- C13: if the machine has no IP address, `reconcilePowerStateOn` leaves the machine state
unchanged, whatever the VM status and the prior state: the machine object after the pass is
the one before it, so its conditions (the Provisioned condition among them) and its stored
task reference are the same. -/
theorem reconcilePowerStateOn_waiting_frame {σ : Type} (machineScope : MachineScope σ)
    (w : World σ) (h : machineHasIPAddress w.ProxmoxMachine = false) :
    (reconcilePowerStateOn machineScope w).world.ProxmoxMachine = w.ProxmoxMachine ∧
    (reconcilePowerStateOn machineScope w).world.ProxmoxMachine.Status.Conditions =
      w.ProxmoxMachine.Status.Conditions ∧
    provisioned (reconcilePowerStateOn machineScope w).world = provisioned w ∧
    taskRef (reconcilePowerStateOn machineScope w).world = taskRef w := by
  simp [reconcilePowerStateOn, h]

/-- Witness of C13: a machine without a network address that holds a failure condition and
a task reference; the pass hands it back as it was. -/
theorem reconcilePowerStateOn_waiting_frame_witness :
    machineHasIPAddress
      (freshWorld { failedMachine with HasNetworkAddress := false }).ProxmoxMachine = false ∧
    (reconcilePowerStateOn ⟨stoppedVM, constClient taskReply⟩
      (freshWorld { failedMachine with HasNetworkAddress := false })).world.ProxmoxMachine =
        { failedMachine with HasNetworkAddress := false } :=
  ⟨rfl, (reconcilePowerStateOn_waiting_frame ⟨stoppedVM, constClient taskReply⟩
    (freshWorld { failedMachine with HasNetworkAddress := false }) rfl).1⟩

/-! ## The condition a pass leaves -/

/-- Storing a task reference leaves the conditions alone. -/
theorem conditions.Get_setTaskRef (m : ProxmoxMachine) (t : Task) (ty : String) :
    conditions.Get (setTaskRef m t) ty = conditions.Get m ty := by
  rfl

/-- C14, refuted as stated: a power-on pass on a new machine without a network address makes
no client call, so none fails, and returns no error, yet it ends with no Provisioned
condition at all, not with the PoweringOn condition. -/
theorem waiting_pass_writes_no_condition :
    callsOn ⟨stoppedVM, constClient taskReply⟩ (freshWorld (newMachine false)) = [] ∧
    (reconcilePowerStateOn ⟨stoppedVM, constClient taskReply⟩
      (freshWorld (newMachine false))).err = none ∧
    provisioned (reconcilePowerStateOn ⟨stoppedVM, constClient taskReply⟩
      (freshWorld (newMachine false))).world = none ∧
    ¬ provisioned (reconcilePowerStateOn ⟨stoppedVM, constClient taskReply⟩
      (freshWorld (newMachine false))).world = some (inProgressCondition PoweringOnReason) := by
  decide

/-- C14, as amended: every power-off pass, and every power-on pass of a machine that has a
network address, in which the client call does not fail (no-action passes included) ends
with the Provisioned condition equal to False with reason PoweringOff (resp. PoweringOn),
Info severity and empty message; a power-on pass of a machine without a network address
leaves the Provisioned condition as it was; and no pass of either reconciler sets the
Provisioned condition to True. -/
theorem pass_leaves_in_progress_condition {σ : Type} (machineScope : MachineScope σ)
    (w : World σ) :
    (machineHasIPAddress w.ProxmoxMachine = true →
      (∀ c ∈ callsOn machineScope w, c.result.2 = none) →
      provisioned (reconcilePowerStateOn machineScope w).world =
        some (inProgressCondition PoweringOnReason)) ∧
    ((∀ c ∈ callsOff machineScope w, c.result.2 = none) →
      provisioned (reconcilePowerStateOff machineScope w).world =
        some (inProgressCondition PoweringOffReason)) ∧
    (machineHasIPAddress w.ProxmoxMachine = false →
      provisioned (reconcilePowerStateOn machineScope w).world = provisioned w) ∧
    (∀ c, provisioned (reconcilePowerStateOn machineScope w).world = some c →
      c.Status = ConditionStatus.ConditionTrue → provisioned w = some c) ∧
    (∀ c, provisioned (reconcilePowerStateOff machineScope w).world = some c →
      c.Status ≠ ConditionStatus.ConditionTrue) := by
  have hon : machineHasIPAddress w.ProxmoxMachine = true →
      (provisioned (reconcilePowerStateOn machineScope w).world =
          some (inProgressCondition PoweringOnReason) ∧
        ∀ c ∈ callsOn machineScope w, c.result.2 = none) ∨
      (∃ err, provisioned (reconcilePowerStateOn machineScope w).world =
          some (failedCondition PoweringOnFailedReason err) ∧
        ∃ c ∈ callsOn machineScope w, c.result.2 ≠ none) := by
    intro hip
    cases hp : machineScope.VirtualMachine.IsPaused with
    | true =>
      rcases hr : (machineScope.ProxmoxClient.ResumeVM w.hypervisor
        machineScope.VirtualMachine).1 with ⟨_ | t, _ | e⟩ <;>
      simp [callsOn, callsDuring, reconcilePowerStateOn, startVirtualMachine, call, hip, hp,
        hr, provisioned, conditions.Get_MarkFalse, conditions.Get_setTaskRef,
        conditions.FalseCondition, failedCondition, inProgressCondition,
        fmt.Sprintf_empty] <;>
      exact ⟨_, rfl⟩
    | false =>
      cases hs : (machineScope.VirtualMachine.IsStopped ||
          machineScope.VirtualMachine.IsHibernated) with
      | true =>
        rcases hr : (machineScope.ProxmoxClient.StartVM w.hypervisor
          machineScope.VirtualMachine).1 with ⟨_ | t, _ | e⟩ <;>
        simp [callsOn, callsDuring, reconcilePowerStateOn, startVirtualMachine, call, hip,
          hp, hs, hr, provisioned, conditions.Get_MarkFalse, conditions.Get_setTaskRef,
          conditions.FalseCondition, failedCondition, inProgressCondition,
          fmt.Sprintf_empty] <;>
        exact ⟨_, rfl⟩
      | false =>
        simp [callsOn, callsDuring, reconcilePowerStateOn, startVirtualMachine, hip, hp,
          hs, provisioned, conditions.Get_MarkFalse_inProgress]
  have hoff :
      (provisioned (reconcilePowerStateOff machineScope w).world =
          some (inProgressCondition PoweringOffReason) ∧
        ∀ c ∈ callsOff machineScope w, c.result.2 = none) ∨
      (∃ err, provisioned (reconcilePowerStateOff machineScope w).world =
          some (failedCondition PoweringOffFailedReason err) ∧
        ∃ c ∈ callsOff machineScope w, c.result.2 ≠ none) := by
    cases hs : machineScope.VirtualMachine.IsStopped with
    | true =>
      simp [callsOff, callsDuring, reconcilePowerStateOff, stopVirtualMachine, hs,
        provisioned, conditions.Get_MarkFalse_inProgress]
    | false =>
      rcases hr : (machineScope.ProxmoxClient.ShutdownVM w.hypervisor
        machineScope.VirtualMachine).1 with ⟨_ | t, _ | e⟩ <;>
      simp [callsOff, callsDuring, reconcilePowerStateOff, stopVirtualMachine, call, hs,
        hr, provisioned, conditions.Get_MarkFalse, conditions.Get_setTaskRef,
        conditions.FalseCondition, failedCondition, inProgressCondition,
        fmt.Sprintf_empty] <;>
      exact ⟨_, rfl⟩
  have hwait : machineHasIPAddress w.ProxmoxMachine = false →
      provisioned (reconcilePowerStateOn machineScope w).world = provisioned w := by
    intro hip
    simp [reconcilePowerStateOn, hip]
  refine ⟨?_, ?_, hwait, ?_, ?_⟩
  · intro hip hall
    rcases hon hip with h | ⟨_, _, c, hc, hne⟩
    · exact h.1
    · exact absurd (hall c hc) hne
  · intro hall
    rcases hoff with h | ⟨_, _, c, hc, hne⟩
    · exact h.1
    · exact absurd (hall c hc) hne
  · intro c hc htrue
    cases hip : machineHasIPAddress w.ProxmoxMachine with
    | false => rw [← hwait hip]; exact hc
    | true =>
      rcases hon hip with h | ⟨err, h, _⟩
      · rw [h.1] at hc
        cases hc
        simp [inProgressCondition] at htrue
      · rw [h] at hc
        cases hc
        simp [failedCondition] at htrue
  · intro c hc htrue
    rcases hoff with h | ⟨err, h, _⟩
    · rw [h.1] at hc
      cases hc
      simp [inProgressCondition] at htrue
    · rw [h] at hc
      cases hc
      simp [failedCondition] at htrue

/-- Witness of C14 as amended: VM 100 running with a network address (nothing to do) ends
with the PoweringOn condition; VM 100 paused on the way off, ShutdownVM returning a task,
ends with the PoweringOff condition, although the machine showed PoweringOnFailed before. -/
theorem pass_leaves_in_progress_condition_witness :
    provisioned (reconcilePowerStateOn ⟨runningVM, constClient taskReply⟩
      (freshWorld (newMachine true))).world = some (inProgressCondition PoweringOnReason) ∧
    provisioned (reconcilePowerStateOff ⟨pausedVM, constClient taskReply⟩
      (freshWorld failedMachine)).world = some (inProgressCondition PoweringOffReason) :=
  ⟨(pass_leaves_in_progress_condition ⟨runningVM, constClient taskReply⟩
      (freshWorld (newMachine true))).1 rfl (by decide),
    (pass_leaves_in_progress_condition ⟨pausedVM, constClient taskReply⟩
      (freshWorld failedMachine)).2.1 (by decide)⟩

/-! ## No guard on an outstanding task -/

/-- C15: the reconciler has no duplicate-task guard. Two prior states that differ only in the
stored task reference, with the same VM status, network readiness and client behaviour, lead
a pass of `reconcilePowerStateOn` or `reconcilePowerStateOff` to issue the same hypervisor
call and to return the same (requeue, err); and when the new call returns a task, that is
succeeds with a task handle, its identifier overwrites the previously stored task
reference. -/
theorem task_reference_is_no_guard {σ : Type} (machineScope : MachineScope σ) (w : World σ)
    (ref : Option String) :
    ((callsOn machineScope (withTaskRef w ref)).map callSummary =
        (callsOn machineScope w).map callSummary ∧
      (reconcilePowerStateOn machineScope (withTaskRef w ref)).requeue =
        (reconcilePowerStateOn machineScope w).requeue ∧
      (reconcilePowerStateOn machineScope (withTaskRef w ref)).err =
        (reconcilePowerStateOn machineScope w).err ∧
      ∀ c ∈ callsOn machineScope (withTaskRef w ref), ∀ t, c.result = (some t, none) →
        taskRef (reconcilePowerStateOn machineScope (withTaskRef w ref)).world =
          some t.UPID) ∧
    ((callsOff machineScope (withTaskRef w ref)).map callSummary =
        (callsOff machineScope w).map callSummary ∧
      (reconcilePowerStateOff machineScope (withTaskRef w ref)).requeue =
        (reconcilePowerStateOff machineScope w).requeue ∧
      (reconcilePowerStateOff machineScope (withTaskRef w ref)).err =
        (reconcilePowerStateOff machineScope w).err ∧
      ∀ c ∈ callsOff machineScope (withTaskRef w ref), ∀ t, c.result = (some t, none) →
        taskRef (reconcilePowerStateOff machineScope (withTaskRef w ref)).world =
          some t.UPID) := by
  constructor
  · cases hip : w.ProxmoxMachine.HasNetworkAddress with
    | false =>
      simp [callsOn, callsDuring, reconcilePowerStateOn, withTaskRef, machineHasIPAddress,
        hip]
    | true =>
      cases hp : machineScope.VirtualMachine.IsPaused with
      | true =>
        rcases hr : (machineScope.ProxmoxClient.ResumeVM w.hypervisor
          machineScope.VirtualMachine).1 with ⟨_ | t, _ | e⟩ <;>
        simp [callsOn, callsDuring, reconcilePowerStateOn, startVirtualMachine, call,
          withTaskRef, machineHasIPAddress, hip, hp, hr, callSummary, taskRef, setTaskRef]
      | false =>
        cases hs : (machineScope.VirtualMachine.IsStopped ||
            machineScope.VirtualMachine.IsHibernated) with
        | true =>
          rcases hr : (machineScope.ProxmoxClient.StartVM w.hypervisor
            machineScope.VirtualMachine).1 with ⟨_ | t, _ | e⟩ <;>
          simp [callsOn, callsDuring, reconcilePowerStateOn, startVirtualMachine, call,
            withTaskRef, machineHasIPAddress, hip, hp, hs, hr, callSummary, taskRef,
            setTaskRef]
        | false =>
          simp [callsOn, callsDuring, reconcilePowerStateOn, startVirtualMachine,
            withTaskRef, machineHasIPAddress, hip, hp, hs]
  · cases hs : machineScope.VirtualMachine.IsStopped with
    | true =>
      simp [callsOff, callsDuring, reconcilePowerStateOff, stopVirtualMachine, withTaskRef,
        hs]
    | false =>
      rcases hr : (machineScope.ProxmoxClient.ShutdownVM w.hypervisor
        machineScope.VirtualMachine).1 with ⟨_ | t, _ | e⟩ <;>
      simp [callsOff, callsDuring, reconcilePowerStateOff, stopVirtualMachine, call,
        withTaskRef, hs, hr, callSummary, taskRef, setTaskRef]

/-- Witness of C15: VM 100 paused, once with no stored task reference and once with the
outstanding reference "UPID:100:old": both passes issue the same ResumeVM call, and the
second ends with the reference of the new task. -/
theorem task_reference_is_no_guard_witness :
    taskRef (withTaskRef (freshWorld (newMachine true)) (some "UPID:100:old")) =
      some "UPID:100:old" ∧
    (callsOn ⟨pausedVM, constClient taskReply⟩
        (withTaskRef (freshWorld (newMachine true)) (some "UPID:100:old"))).map callSummary =
      [(ClientMethod.ResumeVM, pausedVM, taskReply)] ∧
    (callsOn ⟨pausedVM, constClient taskReply⟩
        (withTaskRef (freshWorld (newMachine true)) (some "UPID:100:old"))).map callSummary =
      (callsOn ⟨pausedVM, constClient taskReply⟩
        (freshWorld (newMachine true))).map callSummary ∧
    taskRef (reconcilePowerStateOn ⟨pausedVM, constClient taskReply⟩
      (withTaskRef (freshWorld (newMachine true)) (some "UPID:100:old"))).world =
      some "UPID:100:..." :=
  ⟨rfl, by decide,
    (task_reference_is_no_guard ⟨pausedVM, constClient taskReply⟩
      (freshWorld (newMachine true)) (some "UPID:100:old")).1.1,
    (task_reference_is_no_guard ⟨pausedVM, constClient taskReply⟩
      (freshWorld (newMachine true)) (some "UPID:100:old")).1.2.2.2 _
      (List.mem_singleton.2 rfl) { UPID := "UPID:100:..." } rfl⟩

/-! ## When a pass asks for a requeue -/

/-- C16, refuted as stated: VM 100 running, target Off, ShutdownVM returning a non-nil task
together with an error: the call did return a non-nil task, yet the pass returns
requeue=false. -/
theorem task_with_error_gives_no_requeue :
    (callsOff ⟨runningVM, constClient taskAndErrorReply⟩
      (freshWorld (newMachine true))).map callSummary =
      [(ClientMethod.ShutdownVM, runningVM, taskAndErrorReply)] ∧
    taskAndErrorReply.1 ≠ none ∧
    (reconcilePowerStateOff ⟨runningVM, constClient taskAndErrorReply⟩
      (freshWorld (newMachine true))).requeue = false ∧
    ¬ ((reconcilePowerStateOff ⟨runningVM, constClient taskAndErrorReply⟩
        (freshWorld (newMachine true))).requeue = true ↔
      ∃ c ∈ callsOff ⟨runningVM, constClient taskAndErrorReply⟩
        (freshWorld (newMachine true)), c.result.1 ≠ none) := by
  decide

/-- C16, as amended: `reconcilePowerStateOn` returns requeue=true if and only if the machine
has no IP address or the client call returned a nil error together with a non-nil task, and
`reconcilePowerStateOff` returns requeue=true if and only if ShutdownVM returned a nil error
together with a non-nil task; neither ever returns requeue=true together with a non-nil
error, and a dispatched call that succeeds with a nil task yields requeue=false, err=nil
with the stored task reference unchanged. -/
theorem requeue_iff_waiting_or_task {σ : Type} (machineScope : MachineScope σ)
    (w : World σ) :
    ((reconcilePowerStateOn machineScope w).requeue = true ↔
      (machineHasIPAddress w.ProxmoxMachine = false ∨
        ∃ c ∈ callsOn machineScope w, c.result.2 = none ∧ c.result.1 ≠ none)) ∧
    ((reconcilePowerStateOff machineScope w).requeue = true ↔
      ∃ c ∈ callsOff machineScope w, c.result.2 = none ∧ c.result.1 ≠ none) ∧
    ¬ ((reconcilePowerStateOn machineScope w).requeue = true ∧
      (reconcilePowerStateOn machineScope w).err ≠ none) ∧
    ¬ ((reconcilePowerStateOff machineScope w).requeue = true ∧
      (reconcilePowerStateOff machineScope w).err ≠ none) ∧
    (∀ c ∈ callsOn machineScope w, c.result = (none, none) →
      (reconcilePowerStateOn machineScope w).requeue = false ∧
      (reconcilePowerStateOn machineScope w).err = none ∧
      taskRef (reconcilePowerStateOn machineScope w).world = taskRef w) ∧
    (∀ c ∈ callsOff machineScope w, c.result = (none, none) →
      (reconcilePowerStateOff machineScope w).requeue = false ∧
      (reconcilePowerStateOff machineScope w).err = none ∧
      taskRef (reconcilePowerStateOff machineScope w).world = taskRef w) := by
  have hon :
      ((reconcilePowerStateOn machineScope w).requeue = true ↔
        (machineHasIPAddress w.ProxmoxMachine = false ∨
          ∃ c ∈ callsOn machineScope w, c.result.2 = none ∧ c.result.1 ≠ none)) ∧
      ¬ ((reconcilePowerStateOn machineScope w).requeue = true ∧
        (reconcilePowerStateOn machineScope w).err ≠ none) ∧
      (∀ c ∈ callsOn machineScope w, c.result = (none, none) →
        (reconcilePowerStateOn machineScope w).requeue = false ∧
        (reconcilePowerStateOn machineScope w).err = none ∧
        taskRef (reconcilePowerStateOn machineScope w).world = taskRef w) := by
    cases hip : machineHasIPAddress w.ProxmoxMachine with
    | false => simp [callsOn, callsDuring, reconcilePowerStateOn, hip]
    | true =>
      cases hp : machineScope.VirtualMachine.IsPaused with
      | true =>
        rcases hr : (machineScope.ProxmoxClient.ResumeVM w.hypervisor
          machineScope.VirtualMachine).1 with ⟨_ | t, _ | e⟩ <;>
        simp [callsOn, callsDuring, reconcilePowerStateOn, startVirtualMachine, call, hip,
          hp, hr, taskRef, conditions.TaskRef_MarkFalse]
      | false =>
        cases hs : (machineScope.VirtualMachine.IsStopped ||
            machineScope.VirtualMachine.IsHibernated) with
        | true =>
          rcases hr : (machineScope.ProxmoxClient.StartVM w.hypervisor
            machineScope.VirtualMachine).1 with ⟨_ | t, _ | e⟩ <;>
          simp [callsOn, callsDuring, reconcilePowerStateOn, startVirtualMachine, call,
            hip, hp, hs, hr, taskRef, conditions.TaskRef_MarkFalse]
        | false =>
          simp [callsOn, callsDuring, reconcilePowerStateOn, startVirtualMachine, hip, hp,
            hs]
  have hoff :
      ((reconcilePowerStateOff machineScope w).requeue = true ↔
        ∃ c ∈ callsOff machineScope w, c.result.2 = none ∧ c.result.1 ≠ none) ∧
      ¬ ((reconcilePowerStateOff machineScope w).requeue = true ∧
        (reconcilePowerStateOff machineScope w).err ≠ none) ∧
      (∀ c ∈ callsOff machineScope w, c.result = (none, none) →
        (reconcilePowerStateOff machineScope w).requeue = false ∧
        (reconcilePowerStateOff machineScope w).err = none ∧
        taskRef (reconcilePowerStateOff machineScope w).world = taskRef w) := by
    cases hs : machineScope.VirtualMachine.IsStopped with
    | true => simp [callsOff, callsDuring, reconcilePowerStateOff, stopVirtualMachine, hs]
    | false =>
      rcases hr : (machineScope.ProxmoxClient.ShutdownVM w.hypervisor
        machineScope.VirtualMachine).1 with ⟨_ | t, _ | e⟩ <;>
      simp [callsOff, callsDuring, reconcilePowerStateOff, stopVirtualMachine, call, hs,
        hr, taskRef, conditions.TaskRef_MarkFalse]
  exact ⟨hon.1, hoff.1, hon.2.1, hoff.2.1, hon.2.2, hoff.2.2⟩

/-- Witness of C16 as amended: VM 100 running, target Off, ShutdownVM succeeding without a
task: requeue=false, err=nil and the stored task reference stays as it was. -/
theorem requeue_iff_waiting_or_task_witness :
    (reconcilePowerStateOff ⟨runningVM, constClient noTaskReply⟩
      (freshWorld failedMachine)).requeue = false ∧
    (reconcilePowerStateOff ⟨runningVM, constClient noTaskReply⟩
      (freshWorld failedMachine)).err = none ∧
    taskRef (reconcilePowerStateOff ⟨runningVM, constClient noTaskReply⟩
      (freshWorld failedMachine)).world = taskRef (freshWorld failedMachine) :=
  (requeue_iff_waiting_or_task ⟨runningVM, constClient noTaskReply⟩
    (freshWorld failedMachine)).2.2.2.2.2 _ (List.mem_singleton.2 rfl) rfl

end vmservice

namespace cloudinit

/-! ## Validation of the network configuration -/

/-- A string has length zero exactly when it is the empty string. -/
theorem length_eq_zero_iff (s : String) : s.length = 0 ↔ s = "" := by
  constructor
  · intro h
    cases s with
    | mk l =>
      simp only [String.length, List.length_eq_zero] at h
      subst h
      rfl
  · intro h
    subst h
    rfl

/-- The loop body of `validate` returns the first failing check of the precedence list. -/
theorem validateEntry_eq_firstFailingCheck (parsePrefixOk : String → Bool)
    (d : NetworkConfigData) :
    validateEntry parsePrefixOk d = firstFailingCheck parsePrefixOk d := by
  have h4 : (d.IPAddress.length == 0) = decide (d.IPAddress = "") := by
    rw [Bool.eq_iff_iff]
    simp [length_eq_zero_iff d.IPAddress]
  have h6 : (d.IPV6Address.length == 0) = decide (d.IPV6Address = "") := by
    rw [Bool.eq_iff_iff]
    simp [length_eq_zero_iff d.IPV6Address]
  have p4 : decide (d.IPAddress.length > 0) = decide (d.IPAddress ≠ "") := by
    rw [Bool.eq_iff_iff]
    simp [Nat.pos_iff_ne_zero, length_eq_zero_iff d.IPAddress]
  have p6 : decide (d.IPV6Address.length > 0) = decide (d.IPV6Address ≠ "") := by
    rw [Bool.eq_iff_iff]
    simp [Nat.pos_iff_ne_zero, length_eq_zero_iff d.IPV6Address]
  unfold validateEntry firstFailingCheck validIPAddress
  rw [h4, h6, p4, p6]
  cases d.DHCP4 <;> cases d.DHCP6 <;>
    by_cases hi : d.IPAddress = "" <;> by_cases hv : d.IPV6Address = "" <;>
    by_cases hm : d.MacAddress = "" <;>
    cases parsePrefixOk d.IPAddress <;> cases parsePrefixOk d.IPV6Address <;>
    by_cases hg : d.Gateway = "" <;> by_cases hg6 : d.Gateway6 = "" <;>
    simp [hi, hv, hm, hg, hg6]

/-- An entry passes every check of the precedence list exactly when it has a MAC address,
has DHCP on or an address for some family, and for each family with DHCP off and an address,
the address parses and the gateway is set. -/
theorem firstFailingCheck_eq_none_iff (parsePrefixOk : String → Bool)
    (d : NetworkConfigData) :
    firstFailingCheck parsePrefixOk d = none ↔
      d.MacAddress ≠ "" ∧
      (d.DHCP4 = true ∨ d.DHCP6 = true ∨ d.IPAddress ≠ "" ∨ d.IPV6Address ≠ "") ∧
      (d.DHCP4 = false → d.IPAddress ≠ "" →
        parsePrefixOk d.IPAddress = true ∧ d.Gateway ≠ "") ∧
      (d.DHCP6 = false → d.IPV6Address ≠ "" →
        parsePrefixOk d.IPV6Address = true ∧ d.Gateway6 ≠ "") := by
  unfold firstFailingCheck
  cases d.DHCP4 <;> cases d.DHCP6 <;>
    by_cases hi : d.IPAddress = "" <;> by_cases hv : d.IPV6Address = "" <;>
    by_cases hm : d.MacAddress = "" <;>
    cases parsePrefixOk d.IPAddress <;> cases parsePrefixOk d.IPV6Address <;>
    by_cases hg : d.Gateway = "" <;> by_cases hg6 : d.Gateway6 = "" <;>
    simp [hi, hv, hm, hg, hg6]

/-- The loop of `validate` returns nil exactly when its body does so on every entry. -/
theorem validateLoop_eq_none_iff (parsePrefixOk : String → Bool)
    (l : List NetworkConfigData) :
    validateLoop parsePrefixOk l = none ↔ ∀ d ∈ l, validateEntry parsePrefixOk d = none := by
  induction l with
  | nil => simp [validateLoop]
  | cons d rest ih =>
    unfold validateLoop
    cases h : validateEntry parsePrefixOk d with
    | none => simp [h, ih]
    | some err => simp [h]

/-- The loop of `validate` returns the error of the first invalid entry. -/
theorem validateLoop_eq_firstInvalidEntryError (parsePrefixOk : String → Bool)
    (l : List NetworkConfigData) :
    validateLoop parsePrefixOk l = firstInvalidEntryError parsePrefixOk l := by
  induction l with
  | nil => rfl
  | cons d rest ih =>
    unfold validateLoop
    rw [validateEntry_eq_firstFailingCheck]
    cases h : firstFailingCheck parsePrefixOk d with
    | none =>
      simp only [firstInvalidEntryError, List.find?_cons, h, Option.isSome_none]
      exact ih
    | some err =>
      simp [firstInvalidEntryError, List.find?_cons, h]

/-- On a list that is not empty, `validate` is its loop. -/
theorem validate_of_ne_nil (parsePrefixOk : String → Bool) (r : NetworkConfig)
    (h : r.data.NetworkConfigData ≠ []) :
    r.validate parsePrefixOk = validateLoop parsePrefixOk r.data.NetworkConfigData := by
  unfold NetworkConfig.validate
  have hl : (r.data.NetworkConfigData.length == 0) = false := by
    simpa using h
  simp [hl]

/-- C17: `NetworkConfig.validate` returns nil if and only if the configuration list is
non-empty and every entry has a non-empty MacAddress, has DHCP4 or DHCP6 enabled or a
non-empty IPAddress or IPV6Address, has (when DHCP4 is off and IPAddress is non-empty) an
IPAddress that parses as a CIDR prefix and a non-empty Gateway, and has (when DHCP6 is off
and IPV6Address is non-empty) an IPV6Address that parses as a CIDR prefix and a non-empty
Gateway6; in particular an entry with DHCP4 enabled is accepted whatever its IPAddress and
Gateway are, so also with a malformed IPAddress and no Gateway. -/
theorem validate_eq_none_iff (parsePrefixOk : String → Bool) (r : NetworkConfig) :
    (r.validate parsePrefixOk = none ↔
      r.data.NetworkConfigData ≠ [] ∧
      ∀ d ∈ r.data.NetworkConfigData,
        d.MacAddress ≠ "" ∧
        (d.DHCP4 = true ∨ d.DHCP6 = true ∨ d.IPAddress ≠ "" ∨ d.IPV6Address ≠ "") ∧
        (d.DHCP4 = false → d.IPAddress ≠ "" →
          parsePrefixOk d.IPAddress = true ∧ d.Gateway ≠ "") ∧
        (d.DHCP6 = false → d.IPV6Address ≠ "" →
          parsePrefixOk d.IPV6Address = true ∧ d.Gateway6 ≠ "")) ∧
    (∀ d : NetworkConfigData, d.DHCP4 = true → d.MacAddress ≠ "" →
      (d.DHCP6 = true ∨ d.IPV6Address = "") →
      (NewNetworkConfig [d]).validate parsePrefixOk = none) := by
  have key : ∀ l : List NetworkConfigData,
      validateLoop parsePrefixOk l = none ↔
        ∀ d ∈ l, firstFailingCheck parsePrefixOk d = none := by
    intro l
    rw [validateLoop_eq_none_iff]
    constructor
    · intro h d hd
      rw [← validateEntry_eq_firstFailingCheck]
      exact h d hd
    · intro h d hd
      rw [validateEntry_eq_firstFailingCheck]
      exact h d hd
  constructor
  · constructor
    · intro h
      have hne : r.data.NetworkConfigData ≠ [] := by
        intro hnil
        simp [NetworkConfig.validate, hnil] at h
      rw [validate_of_ne_nil parsePrefixOk r hne, key] at h
      exact ⟨hne, fun d hd => (firstFailingCheck_eq_none_iff parsePrefixOk d).1 (h d hd)⟩
    · rintro ⟨hne, h⟩
      rw [validate_of_ne_nil parsePrefixOk r hne, key]
      exact fun d hd => (firstFailingCheck_eq_none_iff parsePrefixOk d).2 (h d hd)
  · intro d h4 hm h6
    rw [validate_of_ne_nil parsePrefixOk (NewNetworkConfig [d]) (by simp [NewNetworkConfig]),
      key]
    intro x hx
    have hxd : x = d := by simpa [NewNetworkConfig] using hx
    subst hxd
    rw [firstFailingCheck_eq_none_iff]
    refine ⟨hm, Or.inl h4, ?_, ?_⟩
    · intro hf
      simp [h4] at hf
    · intro hf hv
      rcases h6 with h6 | h6
      · simp [h6] at hf
      · exact absurd h6 hv

/-- Witness of C17: an entry with DHCP on, a MAC address, the malformed IPAddress
"not-an-address" and no Gateway is accepted, even by a parser that rejects every input;
the empty list is not. -/
theorem validate_eq_none_iff_witness :
    rejectAll dhcpEntry.IPAddress = false ∧ dhcpEntry.Gateway = "" ∧
    (NewNetworkConfig [dhcpEntry]).validate rejectAll = none ∧
    ¬ (NewNetworkConfig []).validate rejectAll = none :=
  ⟨rfl, rfl,
    (validate_eq_none_iff rejectAll (NewNetworkConfig [dhcpEntry])).2 dhcpEntry rfl
      (by decide) (Or.inl rfl),
    fun h => ((validate_eq_none_iff rejectAll (NewNetworkConfig [])).1.1 h).1 rfl⟩

/-- C18: when `NetworkConfig.validate` fails on a non-empty list, the error is the one raised
by the first invalid entry in list order, whatever the later entries are, and within that
entry the checks fire in the fixed precedence of `firstFailingCheck`: ErrMissingIPAddress
(no DHCP and no address), then ErrMissingMacAddress, then ErrMalformedIPAddress for
IPAddress, then ErrMissingGateway for an empty Gateway, then ErrMalformedIPAddress for
IPV6Address, then ErrMissingGateway for an empty Gateway6. -/
theorem validate_error_precedence (parsePrefixOk : String → Bool) (r : NetworkConfig)
    (h : r.data.NetworkConfigData ≠ []) :
    r.validate parsePrefixOk =
      firstInvalidEntryError parsePrefixOk r.data.NetworkConfigData ∧
    ∀ (before : List NetworkConfigData) (d : NetworkConfigData)
      (after : List NetworkConfigData) (err : CloudInitError),
      r.data.NetworkConfigData = before ++ d :: after →
      (∀ x ∈ before, firstFailingCheck parsePrefixOk x = none) →
      firstFailingCheck parsePrefixOk d = some err →
      r.validate parsePrefixOk = some err := by
  rw [validate_of_ne_nil parsePrefixOk r h]
  refine ⟨validateLoop_eq_firstInvalidEntryError parsePrefixOk _, ?_⟩
  intro before d after err hsplit hbefore hd
  rw [hsplit]
  clear hsplit
  induction before with
  | nil =>
    simp [validateLoop, validateEntry_eq_firstFailingCheck, hd]
  | cons x rest ih =>
    have hx : firstFailingCheck parsePrefixOk x = none := hbefore x (List.mem_cons_self _ _)
    have hrest : ∀ y ∈ rest, firstFailingCheck parsePrefixOk y = none :=
      fun y hy => hbefore y (List.mem_cons_of_mem _ hy)
    simp only [List.cons_append, validateLoop, validateEntry_eq_firstFailingCheck, hx]
    exact ih hrest

/-- Witness of C18: a valid entry, then an entry without a MAC address whose address is
malformed and whose gateway is missing, then an entry without any address: the error is
ErrMissingMacAddress, that of the second entry, by its first failing check. -/
theorem validate_error_precedence_witness :
    (NewNetworkConfig [staticEntry, brokenEntry, emptyEntry]).data.NetworkConfigData ≠ [] ∧
    firstFailingCheck acceptOne emptyEntry = some CloudInitError.ErrMissingIPAddress ∧
    (NewNetworkConfig [staticEntry, brokenEntry, emptyEntry]).validate acceptOne =
      some CloudInitError.ErrMissingMacAddress :=
  ⟨by decide, by decide,
    (validate_error_precedence acceptOne
      (NewNetworkConfig [staticEntry, brokenEntry, emptyEntry]) (by decide)).2
      [staticEntry] brokenEntry [emptyEntry] CloudInitError.ErrMissingMacAddress rfl
      (by decide) (by decide)⟩

/-! ## Rendering -/

/-- C19: for every `NetworkConfig` built by `NewNetworkConfig(configs)`, whenever `validate`
fails `Render` returns nil bytes together with exactly the error of `validate`, and neither
prints nor runs the template engine; in particular for an empty (or nil) list it returns
(nil, ErrMissingNetworkConfigData). -/
theorem Render_of_invalid (parsePrefixOk : String → Bool)
    (render : String → String → BaseCloudInitData → RenderResult)
    (configs : List NetworkConfigData) :
    (∀ err, (NewNetworkConfig configs).validate parsePrefixOk = some err →
      (NewNetworkConfig configs).Render parsePrefixOk render = ((none, some err), [])) ∧
    (NewNetworkConfig []).Render parsePrefixOk render =
      ((none, some CloudInitError.ErrMissingNetworkConfigData), []) := by
  constructor
  · intro err h
    simp [NetworkConfig.Render, h]
  · rfl

/-- Witness of C19: a list whose only entry has no MAC address is not rendered: `Render`
returns nil bytes and ErrMissingMacAddress, and the template engine is not run. -/
theorem Render_of_invalid_witness :
    (NewNetworkConfig [brokenEntry]).validate acceptOne =
      some CloudInitError.ErrMissingMacAddress ∧
    (NewNetworkConfig [brokenEntry]).Render acceptOne failingRender =
      ((none, some CloudInitError.ErrMissingMacAddress), []) :=
  ⟨by decide,
    (Render_of_invalid acceptOne failingRender [brokenEntry]).1
      CloudInitError.ErrMissingMacAddress (by decide)⟩

end cloudinit
